import Mathlib

/-!
Shallow embedding of the Spore transaction-assembly code of this repository:
`createSpores` / `transferSpores` / `meltSpores` (packages/spore/src/api/spore.ts),
the standalone `prepareCluster` cluster resolver, and the action assemblers and
cobuild witness packer of `advanced.ts`.

External collaborators — the `@ckb-ccc/core` client library (transaction
skeleton primitives, live-cell lookups), the molecule codec layer, and the
signer — are out of scope of the core (spec §1, §6) and are modelled from the
specification where noted by a `Modelled from the spec:` doc comment.
All hashes and serialized byte strings are modelled as natural-number /
list-of-natural encodings, since the codec layer is external.
-/

/-- Raw byte strings (output data, packed payloads), modelled as lists of
naturals since the binary codec layer is an external collaborator (spec §6). -/
abbrev Bytes := List Nat

/-- On-chain script (lock = ownership predicate, or type = entity protocol);
`args` carries the entity identifier for Spore/Cluster type scripts. -/
structure Script where
  codeHash : Nat
  hashType : Nat
  args : Nat
deriving DecidableEq, Repr

/-- Modelled from the spec: script-hash computation is provided by the client
library (spec §6 "script-hash computation"); modelled as an injective
encoding of the script fields. -/
def Script.hash (s : Script) : Nat :=
  Nat.pair s.codeHash (Nat.pair s.hashType s.args)

/-- Modelled from the spec: the client library's content hashing
(`ccc.hashCkb`, spec §6 "content hashing"); any fixed computable digest of the
bytes serves the shallow embedding. -/
def hashCkb (b : Bytes) : Nat :=
  b.foldl (fun acc x => Nat.pair acc x) 1

/-- Reference to a live cell: creating transaction hash and output index. -/
structure OutPoint where
  txHash : Nat
  index : Nat
deriving DecidableEq, Repr

/-- A cell output: capacity, lock script and optional type script. -/
structure CellOutput where
  capacity : Nat
  lock : Script
  type : Option Script
deriving DecidableEq, Repr

/-- A live cell as returned by the client's live-cell index. -/
structure Cell where
  outPoint : OutPoint
  cellOutput : CellOutput
  outputData : Bytes
deriving DecidableEq, Repr

/-- A transaction input. `ccc.CellInput.from({previousOutput, ...cell})`
caches the consumed cell's output alongside the out-point, which
`findInputIndexByLock` consults; the cache is modelled explicitly. -/
structure CellInput where
  previousOutput : OutPoint
  cellOutput : Option CellOutput
deriving DecidableEq, Repr

/-- Dependency kind of a cell dependency. -/
inductive DepType where
  | code
  | depGroup
deriving DecidableEq, Repr

/-- A cell dependency: code/state a script needs at execution time. -/
structure CellDep where
  outPoint : OutPoint
  depType : DepType
deriving DecidableEq, Repr

/-- Modelled from the spec: `ccc.CellDepInfo` (spec §6 "add
cell-dependency-info") wraps a cell dependency; the optional dep-group
auto-update metadata is irrelevant to the embedded code paths. -/
structure CellDepInfo where
  cellDep : CellDep
deriving DecidableEq, Repr

/-- Structured payload of a cobuild action (`SporeAction` union of
`codec/index.ts`); the molecule serialization is external, so the packed
bytes are modelled by their structured content. -/
inductive SporeActionData where
  | createSpore (sporeId : Nat) (dataHash : Nat) (toLock : Script)
  | transferSpore (sporeId : Nat) (fromLock : Script) (toLock : Script)
  | meltSpore (sporeId : Nat) (fromLock : Script)
  | createCluster (clusterId : Nat) (dataHash : Nat) (toLock : Script)
  | transferCluster (clusterId : Nat) (fromLock : Script) (toLock : Script)
deriving DecidableEq, Repr

/-- Whether an action payload is a CreateSpore transition. -/
def SporeActionData.isCreateSpore : SporeActionData → Bool
  | .createSpore _ _ _ => true
  | _ => false

/-- Whether an action payload is a MeltSpore transition. -/
def SporeActionData.isMeltSpore : SporeActionData → Bool
  | .meltSpore _ _ => true
  | _ => false

/-- A cobuild action record `{ scriptInfoHash, scriptHash, data }` (named
`Action` in `codec/index.ts`). -/
structure CobuildAction where
  scriptInfoHash : Nat
  scriptHash : Nat
  data : SporeActionData
deriving DecidableEq, Repr

/-- A witness entry. The cobuild envelope (`WitnessLayout.pack` of a
`SighashAll` variant holding an empty seal and the action list) is modelled
at the envelope level, the serialization being external codec work. -/
inductive Witness where
  | raw (bytes : Nat)
  | cobuild (actions : List CobuildAction)
deriving DecidableEq, Repr

/-- Whether a witness entry is a cobuild envelope. -/
def Witness.isCobuild : Witness → Bool
  | .cobuild _ => true
  | .raw _ => false

/-- Number of cobuild witness entries in a witness list. -/
def countCobuildWitnesses (ws : List Witness) : Nat :=
  ws.countP Witness.isCobuild

/-- The transaction skeleton: ordered inputs, ordered outputs, parallel
output-data, cell-dependency set and witness list (spec §6). -/
structure Tx where
  inputs : List CellInput
  outputs : List CellOutput
  outputsData : List Bytes
  cellDeps : List CellDep
  witnesses : List Witness
deriving DecidableEq, Repr

/-- The empty transaction skeleton (`ccc.Transaction.from({})`). -/
def emptyTx : Tx :=
  { inputs := [], outputs := [], outputsData := [], cellDeps := [], witnesses := [] }

/-- Turn a live cell into the input consuming it (the
`ccc.CellInput.from({previousOutput: cell.outPoint, ...cell})` pattern). -/
def Cell.toInput (c : Cell) : CellInput :=
  { previousOutput := c.outPoint, cellOutput := some c.cellOutput }

/-- Modelled from the spec: `tx.inputs.push(...)` — append an input (§6). -/
def Tx.pushInput (tx : Tx) (i : CellInput) : Tx :=
  { tx with inputs := tx.inputs ++ [i] }

/-- Modelled from the spec: `tx.addOutput(output, data)` — append an output
together with its parallel output data (§6). -/
def Tx.addOutput (tx : Tx) (o : CellOutput) (d : Bytes) : Tx :=
  { tx with outputs := tx.outputs ++ [o], outputsData := tx.outputsData ++ [d] }

/-- Modelled from the spec: `tx.addCellDeps(dep)` — the cell-dependency
collection is a set accumulated with deduplication (§3 "accumulated as a set
(deduplicated)", §6 "cell-dependency set"): appending is a no-op when an
equal dependency is already present. -/
def Tx.addCellDep (tx : Tx) (d : CellDep) : Tx :=
  if d ∈ tx.cellDeps then tx else { tx with cellDeps := tx.cellDeps ++ [d] }

/-- Modelled from the spec: `tx.addCellDepInfos(client, infos)` — register
each info's cell dependency into the dependency set (§6). -/
def Tx.addCellDepInfos (tx : Tx) (infos : List CellDepInfo) : Tx :=
  infos.foldl (fun t i => t.addCellDep i.cellDep) tx

/-- Lock of an input as resolved by the client library: the cached cell
output if present, otherwise a live-cell index lookup. -/
def CellInput.resolvedLock (resolveOut : OutPoint → Option CellOutput)
    (i : CellInput) : Option Script :=
  match i.cellOutput with
  | some o => some o.lock
  | none => (resolveOut i.previousOutput).map (fun o => o.lock)

/-- Modelled from the spec: `tx.findInputIndexByLock(lock, client)` — find
the (0-based) index of the first input whose resolved lock equals the given
lock (§6 "find input index by lock"); inputs the client cannot resolve do not
match. -/
def Tx.findInputIndexByLock (tx : Tx) (lock : Script)
    (resolveOut : OutPoint → Option CellOutput) : Option Nat :=
  tx.inputs.findIdx? (fun i => decide (CellInput.resolvedLock resolveOut i = some lock))

/-- JavaScript truthiness of the `number | undefined` returned by
`findInputIndexByLock`: `!x` is true both for `undefined` and for index 0.
The source guards `if (!lockProxyInputIndex)` translate to this test. -/
def jsFalsyIndex : Option Nat → Bool
  | none => true
  | some n => n == 0

/-- Insert into a list acting as an insertion-ordered set: no-op when the
element is already present (models `Set.add` at structural equality, per the
spec's set semantics, §3 and §9). -/
def insertDedup {α : Type} [DecidableEq α] (l : List α) (x : α) : List α :=
  if x ∈ l then l else l ++ [x]

/-- Kind selector of the predefined Spore protocol scripts. -/
inductive SporeScriptKind where
  | spore
  | cluster
deriving DecidableEq, Repr

/-- Script info of a predefined protocol script, as consumed by the
standalone `prepareCluster` (`assertCluster` returns `{cell, scriptInfo}`):
its cell dependencies and whether the variant requires cobuild proof. -/
structure SporeScriptInfo where
  cellDeps : List CellDepInfo
  cobuild : Bool

/-- Modelled from the spec: the client-side live-cell index and protocol
metadata, out of scope of the core (§1, §6). `findSpore` / `findCluster`
model `findExistedSporeCellAndCelldep` lookups, `assertCluster` the
`assertCluster` lookup of the standalone resolver, `resolveOut` the
resolution of an input's cell output, `sporeDeps` the result of
`buildSporeCellDep`, and `cobuild` the capability flag behind
`cobuildRequired` (§9: "model as an explicit capability flag carried by the
resolved protocol/version configuration"). -/
structure Client where
  findSpore : Nat → Option (Cell × List CellDepInfo)
  findCluster : Nat → Option (Cell × List CellDepInfo)
  assertCluster : Nat → Option (Cell × SporeScriptInfo)
  resolveOut : OutPoint → Option CellOutput
  sporeDeps : List CellDepInfo
  cobuild : Bool

/-- Modelled from the spec: the external signer (§6): its client, its
recommended lock (`getRecommendedAddressObj`), the pool searched by
`injectOneCapacityCell`, the spare cell returned by `searchOneCellByLock`
("an arbitrary spare cell under the signer's own lock", §9), and its generic
`prepareTransaction` step. -/
structure Signer where
  client : Client
  lock : Script
  capacityCells : List Cell
  proxyCell : Option Cell
  prep : Tx → Tx

/-- Modelled from the spec: `cobuildRequired(tx)` branches on whether the
protocol variant in use declares cobuild proof required; per §9 this duck-
typed check is modelled as a capability flag of the resolved configuration. -/
def cobuildRequired (client : Client) (_tx : Tx) : Bool :=
  client.cobuild

/-- Modelled from the spec: `computeTypeId(tx, outputIndex)` (Identifier
Deriver, §4.1) — a digest over a canonical encoding of all current inputs
plus the target output index; fails only if no inputs are present. -/
def computeTypeId (tx : Tx) (outIndex : Nat) : Option Nat :=
  if tx.inputs.isEmpty then none
  else some (Nat.pair (hashCkb (tx.inputs.map (fun i => Nat.pair i.previousOutput.txHash i.previousOutput.index))) outIndex)

/-- Modelled from the spec: `injectOneCapacityCell(signer, tx)` — a creating
transaction must inject at least one capacity-bearing input first (§4.1);
pushes a cell of the signer's pool, failing when the signer has none. -/
def injectOneCapacityCell (signer : Signer) (tx : Tx) : Except (String × Tx) Tx :=
  match signer.capacityCells with
  | [] => .error ("No capacity cell found", tx)
  | c :: _ => .ok (tx.pushInput c.toInput)

/-- Modelled from the spec: `searchOneCellByLock(signer)` — picks an
arbitrary spare live cell under the signer's own lock, or nothing (§4.4, §9). -/
def searchOneCellByLock (signer : Signer) : Option Cell :=
  signer.proxyCell

/-- Modelled from the spec: `buildSporeScript(client, kind, id, version)` —
the predefined type script of the protocol variant with the entity
identifier embedded in its arguments (§3 "whose type script embeds the
Entity Identifier as an argument"). -/
def buildSporeScript (kind : SporeScriptKind) (id : Nat) (version : Nat) : Script :=
  { codeHash := Nat.pair version (match kind with | .spore => 0 | .cluster => 1),
    hashType := 0,
    args := id }

/-- The Spore data record `{ contentType, content, clusterId? }`. -/
structure SporeData where
  contentType : Nat
  content : Bytes
  clusterId : Option Nat
deriving DecidableEq, Repr

/-- Modelled from the spec: packed bytes of a Spore data record (codec layer,
external, §6). -/
def packRawSporeData (d : SporeData) : Bytes :=
  d.contentType :: (match d.clusterId with | some c => [1, c] | none => [0]) ++ d.content

/-- Modelled from the spec: the capacity the client library completes for an
output given without an explicit capacity — "a capacity sized to the packed
data" (§4.5); any fixed computable sizing serves the shallow embedding. -/
def defaultCapacity (lock : Script) (type : Option Script) (d : Bytes) : Nat :=
  61 + lock.args % 2 + (match type with | some _ => 33 | none => 0) + d.length

/-- The fixed scheme-identifier constant `COBUILD_INFO_HASH` of
`predefined.ts` ("a fixed constant identifying the cobuild scheme version in
use", §4.2); its concrete value is immaterial to the embedding. -/
def COBUILD_INFO_HASH : Nat := 20240101

/-- `assembleCreateSporeAction(sporeOutput, sporeData)` of `advanced.ts`:
fatal error when the cell has no type script; otherwise a CreateSpore action
keyed by the type-script hash, with the content hash of the packed data. -/
def assembleCreateSporeAction (sporeOutput : CellOutput) (sporeData : Bytes) :
    Except String CobuildAction :=
  match sporeOutput.type with
  | none => .error "Spore cell must have a type script"
  | some sporeType =>
    .ok { scriptInfoHash := COBUILD_INFO_HASH,
          scriptHash := sporeType.hash,
          data := .createSpore sporeType.args (hashCkb sporeData) sporeOutput.lock }

/-- `assembleTransferSporeAction(sporeInput, sporeOutput)` of `advanced.ts`:
fatal error when either cell lacks a type script; otherwise a TransferSpore
action keyed by the output cell's type-script hash, recording the before and
after locks. -/
def assembleTransferSporeAction (sporeInput sporeOutput : CellOutput) :
    Except String CobuildAction :=
  match sporeInput.type, sporeOutput.type with
  | some _, some sporeType =>
    .ok { scriptInfoHash := COBUILD_INFO_HASH,
          scriptHash := sporeType.hash,
          data := .transferSpore sporeType.args sporeInput.lock sporeOutput.lock }
  | _, _ => .error "Spore cell must have a type script"

/-- `assembleMeltSporeAction(sporeInput)` of `advanced.ts`: fatal error when
the consumed cell lacks a type script; otherwise a MeltSpore action keyed by
the consumed cell's type-script hash. -/
def assembleMeltSporeAction (sporeInput : CellOutput) : Except String CobuildAction :=
  match sporeInput.type with
  | none => .error "Spore cell must have a type script"
  | some sporeType =>
    .ok { scriptInfoHash := COBUILD_INFO_HASH,
          scriptHash := sporeType.hash,
          data := .meltSpore sporeType.args sporeInput.lock }

/-- `assembleCreateClusterAction(clusterOutput, clusterData)` of
`advanced.ts`. -/
def assembleCreateClusterAction (clusterOutput : CellOutput) (clusterData : Bytes) :
    Except String CobuildAction :=
  match clusterOutput.type with
  | none => .error "Cluster cell must have a type script"
  | some clusterType =>
    .ok { scriptInfoHash := COBUILD_INFO_HASH,
          scriptHash := clusterType.hash,
          data := .createCluster clusterType.args (hashCkb clusterData) clusterOutput.lock }

/-- `assembleTransferClusterAction(clusterInput, clusterOutput)` of
`advanced.ts`: fatal error when either cell lacks a type script; otherwise a
TransferCluster action keyed by the output cell's type-script hash.
(The standalone `prepareCluster` passes a third `scriptInfoHash` argument;
the assembler in `advanced.ts` declares two parameters, so the extra
argument is ignored, as in JavaScript.) -/
def assembleTransferClusterAction (clusterInput clusterOutput : CellOutput) :
    Except String CobuildAction :=
  match clusterInput.type, clusterOutput.type with
  | some _, some clusterType =>
    .ok { scriptInfoHash := COBUILD_INFO_HASH,
          scriptHash := clusterType.hash,
          data := .transferCluster clusterType.args clusterInput.lock clusterOutput.lock }
  | _, _ => .error "Cluster cell must have a type script"

/-- `injectCommonCobuildProof(tx, actions)` of `advanced.ts` (Witness
Packer): packs the action list into a single SighashAll cobuild envelope and
appends it as a new witness entry. -/
def injectCommonCobuildProof (tx : Tx) (actions : List CobuildAction) : Tx :=
  { tx with witnesses := tx.witnesses ++ [Witness.cobuild actions] }

/-- Modelled from the spec: `prepareSporeTransaction(signer, tx, actions)`
(not under src): invokes the Witness Packer with the collected actions and
then the signer's generic preparation step (§2, §4.5). -/
def prepareSporeTransaction (signer : Signer) (tx : Tx) (actions : List CobuildAction) : Tx :=
  signer.prep (injectCommonCobuildProof tx actions)

/-- The common final branch of `createSpores` / `transferSpores` /
`meltSpores`: pack a cobuild proof when the variant requires it, otherwise
delegate directly to the signer's generic preparation (spore.ts, the
`cobuildRequired(tx) ? prepareSporeTransaction(...) : signer.prepareTransaction(tx)`
expression). -/
def finalizeTx (signer : Signer) (tx : Tx) (actions : List CobuildAction) : Tx :=
  if cobuildRequired signer.client tx then prepareSporeTransaction signer tx actions
  else signer.prep tx

/-- Cluster processing mode of `createSpores` (`"lockProxy" | "clusterCell"`). -/
inductive ClusterMode where
  | lockProxy
  | clusterCell
deriving DecidableEq, Repr

/-- One entry of the `spores` argument of `createSpores`:
`{ data, to? }`. -/
structure SporeCreateItem where
  data : SporeData
  dst : Option Script
deriving Repr

/-- Loop state of `createSpores`: the skeleton, the collected actions, the
derived identifiers and the processed-cluster list, in insertion order. -/
structure CreateSt where
  tx : Tx
  actions : List CobuildAction
  ids : List Nat
  processed : List Nat

/-- The `lockProxy` branch inlined in `createSpores` (spore.ts lines
106-137): when `!lockProxyInputIndex` (JavaScript falsy, so also when the
matching input sits at index 0) push the signer's spare cell as input, then
add an output under the cluster lock unless one exists (`findIndex === -1`,
lock compared structurally), then register the cluster's out-point as a
code dependency. -/
def createClusterLockProxy (signer : Signer) (cluster : Cell) (tx : Tx) :
    Except (String × Tx) Tx :=
  let clusterLock := cluster.cellOutput.lock
  let afterInput : Except (String × Tx) Tx :=
    if jsFalsyIndex (tx.findInputIndexByLock clusterLock signer.client.resolveOut) then
      match searchOneCellByLock signer with
      | none => .error ("Cluster lock proxy cell not found", tx)
      | some proxy => .ok (tx.pushInput proxy.toInput)
    else .ok tx
  match afterInput with
  | .error e => .error e
  | .ok tx =>
    let tx :=
      if (tx.outputs.findIdx? (fun o => decide (o.lock = clusterLock))).isNone then
        tx.addOutput
          { capacity := defaultCapacity clusterLock none [], lock := clusterLock, type := none } []
      else tx
    .ok (tx.addCellDep { outPoint := cluster.outPoint, depType := .code })

/-- The `clusterCell` branch inlined in `createSpores` (spore.ts lines
138-158): consume the cluster cell, reproduce it unchanged, register its
code dependency and its dependency infos, and emit a TransferCluster action
over the unchanged cell output. -/
def createClusterCellBranch (cluster : Cell) (clusterCelldep : List CellDepInfo)
    (st : CreateSt) : Except (String × Tx) CreateSt :=
  let tx := st.tx.pushInput cluster.toInput
  let tx := tx.addOutput cluster.cellOutput cluster.outputData
  let tx := tx.addCellDep { outPoint := cluster.outPoint, depType := .code }
  let tx := tx.addCellDepInfos clusterCelldep
  match assembleTransferClusterAction cluster.cellOutput cluster.cellOutput with
  | .error e => .error (e, tx)
  | .ok transferCluster => .ok { st with tx := tx, actions := st.actions ++ [transferCluster] }

/-- Cluster resolution of one spore inside the `createSpores` loop: the
lookup `findExistedSporeCellAndCelldep(client, Cluster, clusterId)` followed
by the `switch (clusterMode)` (spore.ts lines 99-159). -/
def createClusterResolve (signer : Signer) (mode : ClusterMode) (cid : Nat)
    (st : CreateSt) : Except (String × Tx) CreateSt :=
  match signer.client.findCluster cid with
  | none => .error ("Cluster cell not found", st.tx)
  | some (cluster, clusterCelldep) =>
    match mode with
    | .lockProxy =>
      match createClusterLockProxy signer cluster st.tx with
      | .error e => .error e
      | .ok tx => .ok { st with tx := tx }
    | .clusterCell => createClusterCellBranch cluster clusterCelldep st

/-- The expected output cell appended for a created spore: destination lock
(the signer's recommended lock when none is given), the Spore type script
carrying the derived identifier, and completed capacity. -/
def sporeOutputFor (signer : Signer) (version : Nat) (item : SporeCreateItem)
    (id : Nat) : CellOutput :=
  { capacity := defaultCapacity (item.dst.getD signer.lock)
      (some (buildSporeScript .spore id version)) (packRawSporeData item.data),
    lock := item.dst.getD signer.lock,
    type := some (buildSporeScript .spore id version) }

/-- One iteration of the `createSpores` loop (spore.ts lines 65-160):
derive the identifier, append the spore output, assemble the CreateSpore
action, then — unless `clusterMode` is unset, the data declares no cluster,
or the cluster was already processed — record the cluster as processed and
resolve it. -/
def createSporeStep (signer : Signer) (clusterMode : Option ClusterMode)
    (version : Nat) (item : SporeCreateItem) (st : CreateSt) :
    Except (String × Tx) CreateSt :=
  match computeTypeId st.tx st.tx.outputs.length with
  | none => .error ("No input in transaction", st.tx)
  | some id =>
    let sporeOutput := sporeOutputFor signer version item id
    let packedData := packRawSporeData item.data
    let tx := st.tx.addOutput sporeOutput packedData
    match assembleCreateSporeAction sporeOutput packedData with
    | .error e => .error (e, tx)
    | .ok createAction =>
      let st' : CreateSt :=
        { tx := tx, actions := st.actions ++ [createAction],
          ids := st.ids ++ [id], processed := st.processed }
      match clusterMode, item.data.clusterId with
      | none, _ => .ok st'
      | some _, none => .ok st'
      | some mode, some cid =>
        if cid ∈ st'.processed then .ok st'
        else createClusterResolve signer mode cid { st' with processed := st'.processed ++ [cid] }

/-- The `for (const { data, to } of spores)` loop of `createSpores`. -/
def createSporesLoop (signer : Signer) (clusterMode : Option ClusterMode)
    (version : Nat) : List SporeCreateItem → CreateSt → Except (String × Tx) CreateSt
  | [], st => .ok st
  | item :: rest, st =>
    match createSporeStep signer clusterMode version item st with
    | .error e => .error e
    | .ok st' => createSporesLoop signer clusterMode version rest st'

/-- `createSpores` (spore.ts lines 38-174): start from the given skeleton
(or an empty one), inject a capacity cell when there are no inputs, run the
per-spore loop, register the Spore protocol cell dependencies, and branch on
`cobuildRequired`. Errors carry the skeleton as mutated so far, matching the
in-place mutation of the source. -/
def createSpores (signer : Signer) (spores : List SporeCreateItem)
    (clusterMode : Option ClusterMode) (version : Nat) (txl : Option Tx) :
    Except (String × Tx) (Tx × List Nat) :=
  let tx := txl.getD emptyTx
  let afterInject : Except (String × Tx) Tx :=
    if tx.inputs.length = 0 then injectOneCapacityCell signer tx else .ok tx
  match afterInject with
  | .error e => .error e
  | .ok tx =>
    match createSporesLoop signer clusterMode version spores
        { tx := tx, actions := [], ids := [], processed := [] } with
    | .error e => .error e
    | .ok st =>
      let tx := st.tx.addCellDepInfos signer.client.sporeDeps
      .ok (finalizeTx signer tx st.actions, st.ids)

/-- One entry of the `spores` argument of `transferSpores`: `{ id, to }`. -/
structure TransferItem where
  id : Nat
  dst : Script
deriving DecidableEq, Repr

/-- Loop state of `transferSpores`: the skeleton, the collected actions, and
the cell-dependency-info set accumulated across lookups. -/
structure TransferSt where
  tx : Tx
  actions : List CobuildAction
  celldeps : List CellDepInfo

/-- The reproduced output of a transferred spore: the new lock, the input
cell's type script, and completed capacity (spore.ts lines 216-222). -/
def transferredOutput (dst : Script) (sporeCell : Cell) : CellOutput :=
  { capacity := defaultCapacity dst sporeCell.cellOutput.type sporeCell.outputData,
    lock := dst,
    type := sporeCell.cellOutput.type }

/-- One iteration of the `transferSpores` loop (spore.ts lines 203-230):
locate the live cell by identifier, accumulate its dependency infos into the
set, consume it as an input, reproduce the output under the new lock with
identical type and data, and assemble the TransferSpore action. -/
def transferSporeStep (signer : Signer) (item : TransferItem) (st : TransferSt) :
    Except (String × Tx) TransferSt :=
  match signer.client.findSpore item.id with
  | none => .error ("Spore cell not found", st.tx)
  | some (sporeCell, celldep) =>
    let celldeps := celldep.foldl insertDedup st.celldeps
    let tx := st.tx.pushInput sporeCell.toInput
    let sporeOutput := transferredOutput item.dst sporeCell
    let tx := tx.addOutput sporeOutput sporeCell.outputData
    match assembleTransferSporeAction sporeCell.cellOutput sporeOutput with
    | .error e => .error (e, tx)
    | .ok transferSpore =>
      .ok { tx := tx, actions := st.actions ++ [transferSpore], celldeps := celldeps }

/-- The `for (const { id, to } of spores)` loop of `transferSpores`. -/
def transferSporesLoop (signer : Signer) :
    List TransferItem → TransferSt → Except (String × Tx) TransferSt
  | [], st => .ok st
  | item :: rest, st =>
    match transferSporeStep signer item st with
    | .error e => .error e
    | .ok st' => transferSporesLoop signer rest st'

/-- `transferSpores` (spore.ts lines 185-239): run the per-spore loop from
the given skeleton (or an empty one), register the accumulated
cell-dependency set, and branch on `cobuildRequired`. -/
def transferSpores (signer : Signer) (spores : List TransferItem)
    (txl : Option Tx) : Except (String × Tx) Tx :=
  let tx := txl.getD emptyTx
  match transferSporesLoop signer spores { tx := tx, actions := [], celldeps := [] } with
  | .error e => .error e
  | .ok st => .ok (finalizeTx signer (st.tx.addCellDepInfos st.celldeps) st.actions)

/-- One iteration of the `meltSpores` loop (spore.ts lines 266-282): locate
the live cell, accumulate its dependency infos, consume it as an input with
no replacement output, and assemble the MeltSpore action. -/
def meltSporeStep (signer : Signer) (sporeId : Nat) (st : TransferSt) :
    Except (String × Tx) TransferSt :=
  match signer.client.findSpore sporeId with
  | none => .error ("Spore cell not found", st.tx)
  | some (sporeCell, celldep) =>
    let celldeps := celldep.foldl insertDedup st.celldeps
    let tx := st.tx.pushInput sporeCell.toInput
    match assembleMeltSporeAction sporeCell.cellOutput with
    | .error e => .error (e, tx)
    | .ok meltSpore =>
      .ok { tx := tx, actions := st.actions ++ [meltSpore], celldeps := celldeps }

/-- The `for (const sporeId of ids)` loop of `meltSpores`. -/
def meltSporesLoop (signer : Signer) :
    List Nat → TransferSt → Except (String × Tx) TransferSt
  | [], st => .ok st
  | sporeId :: rest, st =>
    match meltSporeStep signer sporeId st with
    | .error e => .error e
    | .ok st' => meltSporesLoop signer rest st'

/-- `meltSpores` (spore.ts lines 251-292): run the per-identifier loop from
the given skeleton (or an empty one), register the accumulated
cell-dependency set, and branch on `cobuildRequired`. -/
def meltSpores (signer : Signer) (ids : List Nat) (txl : Option Tx) :
    Except (String × Tx) Tx :=
  let tx := txl.getD emptyTx
  match meltSporesLoop signer ids { tx := tx, actions := [], celldeps := [] } with
  | .error e => .error e
  | .ok st => .ok (finalizeTx signer (st.tx.addCellDepInfos st.celldeps) st.actions)

/-- Cluster processing mode of the standalone `prepareCluster`
(`"lockProxy" | "clusterCell" | "skip"`). -/
inductive PrepClusterMode where
  | lockProxy
  | clusterCell
  | skip
deriving DecidableEq, Repr

/-- The `lockProxy` branch of the standalone `prepareCluster`: when
`!(await tx.findInputIndexByLock(lock, client))` (JavaScript falsy, so also
when the matching input sits at index 0) push the signer's spare cell as
input; add an output under the cluster lock when
`tx.outputs.every((output) => output.lock !== lock)` (lock compared
structurally); register the cluster's out-point as a code dependency; no
action is returned. -/
def prepareClusterLockProxy (signer : Signer) (cluster : Cell) (tx : Tx) :
    Except (String × Tx) (Tx × Option CobuildAction) :=
  let lock := cluster.cellOutput.lock
  let afterInput : Except (String × Tx) Tx :=
    if jsFalsyIndex (tx.findInputIndexByLock lock signer.client.resolveOut) then
      match searchOneCellByLock signer with
      | none => .error ("Cluster lock proxy cell not found", tx)
      | some proxy => .ok (tx.pushInput proxy.toInput)
    else .ok tx
  match afterInput with
  | .error e => .error e
  | .ok tx =>
    let tx :=
      if tx.outputs.all (fun o => decide (o.lock ≠ lock)) then
        tx.addOutput
          { capacity := defaultCapacity lock none [], lock := lock, type := none } []
      else tx
    .ok (tx.addCellDep { outPoint := cluster.outPoint, depType := .code }, none)

/-- The `clusterCell` branch of the standalone `prepareCluster`: return
unchanged when the cluster's out-point is already among the consumed inputs;
otherwise consume the cluster cell, reproduce it unchanged, register its
dependency infos and its code dependency, and — only when the cluster's
script info declares cobuild — emit a TransferCluster action over the
unchanged cell output. -/
def prepareClusterCellBranch (_signer : Signer) (cluster : Cell)
    (scriptInfo : SporeScriptInfo) (tx : Tx) :
    Except (String × Tx) (Tx × Option CobuildAction) :=
  if tx.inputs.any (fun i => decide (i.previousOutput = cluster.outPoint)) then
    .ok (tx, none)
  else
    let tx := tx.pushInput cluster.toInput
    let tx := tx.addOutput cluster.cellOutput cluster.outputData
    let tx := tx.addCellDepInfos scriptInfo.cellDeps
    let tx := tx.addCellDep { outPoint := cluster.outPoint, depType := .code }
    if scriptInfo.cobuild then
      match assembleTransferClusterAction cluster.cellOutput cluster.cellOutput with
      | .error e => .error (e, tx)
      | .ok transferCluster => .ok (tx, some transferCluster)
    else .ok (tx, none)

/-- The standalone `prepareCluster(signer, tx, data, clusterMode,
scriptInfoHash)` resolver: return unchanged when the data declares no
cluster or the mode is `skip`; raise the fatal configuration error when the
mode is undefined; otherwise look the cluster up (`assertCluster`) and run
the branch of the given mode. (The `scriptInfoHash` argument is dropped:
the `advanced.ts` assembler it is forwarded to declares two parameters.) -/
def prepareCluster (signer : Signer) (tx : Tx) (data : SporeData)
    (clusterMode : Option PrepClusterMode) :
    Except (String × Tx) (Tx × Option CobuildAction) :=
  match data.clusterId with
  | none => .ok (tx, none)
  | some cid =>
    if clusterMode = some PrepClusterMode.skip then .ok (tx, none)
    else
      match clusterMode with
      | none => .error ("clusterMode is undefined but the spore has a cluster", tx)
      | some mode =>
        match signer.client.assertCluster cid with
        | none => .error ("Cluster not found for clusterId: " ++ toString cid, tx)
        | some (cluster, scriptInfo) =>
          match mode with
          | .skip => .ok (tx, none)
          | .lockProxy => prepareClusterLockProxy signer cluster tx
          | .clusterCell => prepareClusterCellBranch signer cluster scriptInfo tx

/-- A lock script used by the concrete environments below. -/
def lockA : Script := { codeHash := 100, hashType := 0, args := 1 }

/-- A second lock script (transfer destination). -/
def lockB : Script := { codeHash := 100, hashType := 0, args := 2 }

/-- The type script of the example cluster (identifier 77). -/
def clusterTypeEx : Script := buildSporeScript .cluster 77 0

/-- The example cluster cell. -/
def clusterCellEx : Cell :=
  { outPoint := { txHash := 500, index := 0 },
    cellOutput := { capacity := 200, lock := lockA, type := some clusterTypeEx },
    outputData := [9, 9] }

/-- The signer's spare cell under its own lock, returned by
`searchOneCellByLock`. -/
def proxyCellEx : Cell :=
  { outPoint := { txHash := 600, index := 1 },
    cellOutput := { capacity := 61, lock := lockA, type := none },
    outputData := [] }

/-- The signer's capacity cell, injected by `injectOneCapacityCell`. -/
def capCellEx : Cell :=
  { outPoint := { txHash := 700, index := 2 },
    cellOutput := { capacity := 100, lock := lockA, type := none },
    outputData := [] }

/-- The type script of the example spore (identifier 55). -/
def sporeTypeEx : Script := buildSporeScript .spore 55 0

/-- The example live spore cell (identifier 55). -/
def sporeCellEx : Cell :=
  { outPoint := { txHash := 800, index := 3 },
    cellOutput := { capacity := 120, lock := lockA, type := some sporeTypeEx },
    outputData := [1, 2, 3] }

/-- An example cell-dependency info. -/
def depInfoA : CellDepInfo :=
  { cellDep := { outPoint := { txHash := 900, index := 0 }, depType := .code } }

/-- A second example cell-dependency info. -/
def depInfoB : CellDepInfo :=
  { cellDep := { outPoint := { txHash := 901, index := 0 }, depType := .depGroup } }

/-- A concrete client: spore 55 and cluster 77 are live, both lookups also
return overlapping dependency-info sets; the protocol variant requires
cobuild proof. -/
def clientEx : Client :=
  { findSpore := fun i => if i = 55 then some (sporeCellEx, [depInfoA, depInfoB]) else none,
    findCluster := fun i => if i = 77 then some (clusterCellEx, [depInfoA]) else none,
    assertCluster := fun i =>
      if i = 77 then some (clusterCellEx, { cellDeps := [depInfoA], cobuild := true }) else none,
    resolveOut := fun _ => none,
    sporeDeps := [depInfoB],
    cobuild := true }

/-- A concrete signer over `clientEx` whose generic preparation step is the
identity. -/
def signerEx : Signer :=
  { client := clientEx, lock := lockA, capacityCells := [capCellEx],
    proxyCell := some proxyCellEx, prep := fun t => t }

/-- The example spore data declaring cluster 77. -/
def dataClusteredEx : SporeData := { contentType := 5, content := [1, 2], clusterId := some 77 }

/-- The example spore data declaring no cluster. -/
def dataPlainEx : SporeData := { contentType := 5, content := [1, 2], clusterId := none }

/-- List extension: `b` preserves every entry of `a` at its position and
only appends after it. -/
def ListExt {α : Type} (a b : List α) : Prop := ∃ t, b = a ++ t

theorem listExt_refl {α : Type} (a : List α) : ListExt a a :=
  ⟨[], by simp⟩

theorem listExt_trans {α : Type} {a b c : List α} (h₁ : ListExt a b)
    (h₂ : ListExt b c) : ListExt a c := by
  obtain ⟨t₁, rfl⟩ := h₁
  obtain ⟨t₂, rfl⟩ := h₂
  exact ⟨t₁ ++ t₂, by simp⟩

theorem listExt_append {α : Type} (a t : List α) : ListExt a (a ++ t) :=
  ⟨t, rfl⟩

/-- Skeleton extension: every list of the first skeleton is preserved
unchanged at its positions in the second, which only appends (the
"pure append, never destructive rewrite" shape of spec §7). -/
def TxExt (t₀ t₁ : Tx) : Prop :=
  ListExt t₀.inputs t₁.inputs ∧ ListExt t₀.outputs t₁.outputs ∧
  ListExt t₀.outputsData t₁.outputsData ∧ ListExt t₀.cellDeps t₁.cellDeps ∧
  ListExt t₀.witnesses t₁.witnesses

theorem txExt_refl (t : Tx) : TxExt t t :=
  ⟨listExt_refl _, listExt_refl _, listExt_refl _, listExt_refl _, listExt_refl _⟩

theorem txExt_trans {a b c : Tx} (h₁ : TxExt a b) (h₂ : TxExt b c) : TxExt a c :=
  ⟨listExt_trans h₁.1 h₂.1, listExt_trans h₁.2.1 h₂.2.1,
   listExt_trans h₁.2.2.1 h₂.2.2.1, listExt_trans h₁.2.2.2.1 h₂.2.2.2.1,
   listExt_trans h₁.2.2.2.2 h₂.2.2.2.2⟩

theorem txExt_pushInput (tx : Tx) (i : CellInput) : TxExt tx (tx.pushInput i) :=
  ⟨listExt_append _ _, listExt_refl _, listExt_refl _, listExt_refl _, listExt_refl _⟩

theorem txExt_addOutput (tx : Tx) (o : CellOutput) (d : Bytes) :
    TxExt tx (tx.addOutput o d) :=
  ⟨listExt_refl _, listExt_append _ _, listExt_append _ _, listExt_refl _, listExt_refl _⟩

theorem txExt_addCellDep (tx : Tx) (d : CellDep) : TxExt tx (tx.addCellDep d) := by
  unfold Tx.addCellDep
  split
  · exact txExt_refl tx
  · exact ⟨listExt_refl _, listExt_refl _, listExt_refl _, listExt_append _ _, listExt_refl _⟩

theorem addCellDepInfos_nil (tx : Tx) : tx.addCellDepInfos [] = tx := rfl

theorem addCellDepInfos_cons (tx : Tx) (i : CellDepInfo) (rest : List CellDepInfo) :
    tx.addCellDepInfos (i :: rest) = (tx.addCellDep i.cellDep).addCellDepInfos rest := rfl

theorem txExt_addCellDepInfos (infos : List CellDepInfo) (tx : Tx) :
    TxExt tx (tx.addCellDepInfos infos) := by
  induction infos generalizing tx with
  | nil => exact txExt_refl tx
  | cons i rest ih =>
    rw [addCellDepInfos_cons]
    exact txExt_trans (txExt_addCellDep tx i.cellDep) (ih _)

theorem txExt_inject (tx : Tx) (actions : List CobuildAction) :
    TxExt tx (injectCommonCobuildProof tx actions) :=
  ⟨listExt_refl _, listExt_refl _, listExt_refl _, listExt_refl _, listExt_append _ _⟩

theorem pushInput_witnesses (tx : Tx) (i : CellInput) :
    (tx.pushInput i).witnesses = tx.witnesses := rfl

theorem pushInput_cellDeps (tx : Tx) (i : CellInput) :
    (tx.pushInput i).cellDeps = tx.cellDeps := rfl

theorem addOutput_witnesses (tx : Tx) (o : CellOutput) (d : Bytes) :
    (tx.addOutput o d).witnesses = tx.witnesses := rfl

theorem addOutput_cellDeps (tx : Tx) (o : CellOutput) (d : Bytes) :
    (tx.addOutput o d).cellDeps = tx.cellDeps := rfl

theorem addCellDep_witnesses (tx : Tx) (d : CellDep) :
    (tx.addCellDep d).witnesses = tx.witnesses := by
  unfold Tx.addCellDep
  split <;> rfl

theorem addCellDep_inputs (tx : Tx) (d : CellDep) :
    (tx.addCellDep d).inputs = tx.inputs := by
  unfold Tx.addCellDep
  split <;> rfl

theorem addCellDep_outputs (tx : Tx) (d : CellDep) :
    (tx.addCellDep d).outputs = tx.outputs := by
  unfold Tx.addCellDep
  split <;> rfl

theorem addCellDep_outputsData (tx : Tx) (d : CellDep) :
    (tx.addCellDep d).outputsData = tx.outputsData := by
  unfold Tx.addCellDep
  split <;> rfl

theorem addCellDepInfos_witnesses (infos : List CellDepInfo) (tx : Tx) :
    (tx.addCellDepInfos infos).witnesses = tx.witnesses := by
  induction infos generalizing tx with
  | nil => rfl
  | cons i rest ih => rw [addCellDepInfos_cons, ih, addCellDep_witnesses]

theorem addCellDepInfos_inputs (infos : List CellDepInfo) (tx : Tx) :
    (tx.addCellDepInfos infos).inputs = tx.inputs := by
  induction infos generalizing tx with
  | nil => rfl
  | cons i rest ih => rw [addCellDepInfos_cons, ih, addCellDep_inputs]

theorem addCellDepInfos_outputs (infos : List CellDepInfo) (tx : Tx) :
    (tx.addCellDepInfos infos).outputs = tx.outputs := by
  induction infos generalizing tx with
  | nil => rfl
  | cons i rest ih => rw [addCellDepInfos_cons, ih, addCellDep_outputs]

theorem addCellDepInfos_outputsData (infos : List CellDepInfo) (tx : Tx) :
    (tx.addCellDepInfos infos).outputsData = tx.outputsData := by
  induction infos generalizing tx with
  | nil => rfl
  | cons i rest ih => rw [addCellDepInfos_cons, ih, addCellDep_outputsData]

theorem addCellDep_nodup (tx : Tx) (d : CellDep) (h : tx.cellDeps.Nodup) :
    (tx.addCellDep d).cellDeps.Nodup := by
  unfold Tx.addCellDep
  split
  · exact h
  · next hnot => simpa [List.nodup_append] using ⟨h, hnot⟩

theorem addCellDepInfos_nodup (infos : List CellDepInfo) (tx : Tx)
    (h : tx.cellDeps.Nodup) : (tx.addCellDepInfos infos).cellDeps.Nodup := by
  induction infos generalizing tx with
  | nil => exact h
  | cons i rest ih => exact addCellDepInfos_cons tx i rest ▸ ih _ (addCellDep_nodup tx i.cellDep h)

theorem addCellDep_mem (tx : Tx) (d : CellDep) : d ∈ (tx.addCellDep d).cellDeps := by
  unfold Tx.addCellDep
  split
  · assumption
  · simp

/-- The skeleton reachable from a fallible step: the carried skeleton on
error (the source mutates the skeleton in place, so a thrown error leaves
the caller holding it), the projected skeleton on success. -/
def errTxOr {α : Type} (f : α → Tx) : Except (String × Tx) α → Tx
  | .ok a => f a
  | .error e => e.2

theorem injectOneCapacityCell_ext (signer : Signer) (tx : Tx) :
    TxExt tx (errTxOr id (injectOneCapacityCell signer tx)) := by
  unfold injectOneCapacityCell
  split
  · exact txExt_refl tx
  · exact txExt_pushInput tx _

theorem createClusterLockProxy_ext (signer : Signer) (cluster : Cell) (tx : Tx) :
    TxExt tx (errTxOr id (createClusterLockProxy signer cluster tx)) := by
  unfold createClusterLockProxy
  dsimp only
  split
  · next e heq =>
    split at heq
    · split at heq
      · injection heq with h
        exact h ▸ txExt_refl tx
      · exact absurd heq (by simp)
    · exact absurd heq (by simp)
  · next tx1 heq =>
    have hext : TxExt tx tx1 := by
      split at heq
      · split at heq
        · exact absurd heq (by simp)
        · injection heq with h
          exact h ▸ txExt_pushInput tx _
      · injection heq with h
        exact h ▸ txExt_refl tx
    refine txExt_trans hext (txExt_trans ?_ (txExt_addCellDep _ _))
    split
    · exact txExt_addOutput tx1 _ _
    · exact txExt_refl tx1

theorem createClusterCellBranch_ext (cluster : Cell) (clusterCelldep : List CellDepInfo)
    (st : CreateSt) :
    TxExt st.tx (errTxOr (fun s => s.tx) (createClusterCellBranch cluster clusterCelldep st)) := by
  unfold createClusterCellBranch
  dsimp only
  have hchain : TxExt st.tx ((((st.tx.pushInput cluster.toInput).addOutput
      cluster.cellOutput cluster.outputData).addCellDep
      { outPoint := cluster.outPoint, depType := .code }).addCellDepInfos clusterCelldep) :=
    txExt_trans (txExt_pushInput _ _) (txExt_trans (txExt_addOutput _ _ _)
      (txExt_trans (txExt_addCellDep _ _) (txExt_addCellDepInfos _ _)))
  split <;> exact hchain

theorem createClusterResolve_ext (signer : Signer) (mode : ClusterMode) (cid : Nat)
    (st : CreateSt) :
    TxExt st.tx (errTxOr (fun s => s.tx) (createClusterResolve signer mode cid st)) := by
  unfold createClusterResolve
  split
  · exact txExt_refl _
  · next cluster clusterCelldep _ =>
    cases mode with
    | lockProxy =>
      have h := createClusterLockProxy_ext signer cluster st.tx
      dsimp only
      cases hc : createClusterLockProxy signer cluster st.tx with
      | error e => rw [hc] at h; simpa [errTxOr] using h
      | ok tx1 => rw [hc] at h; simpa [errTxOr] using h
    | clusterCell => exact createClusterCellBranch_ext cluster clusterCelldep st

theorem createSporeStep_ext (signer : Signer) (clusterMode : Option ClusterMode)
    (version : Nat) (item : SporeCreateItem) (st : CreateSt) :
    TxExt st.tx (errTxOr (fun s => s.tx)
      (createSporeStep signer clusterMode version item st)) := by
  unfold createSporeStep
  split
  · exact txExt_refl _
  · next id _ =>
    dsimp only
    split
    · exact txExt_addOutput _ _ _
    · next createAction _ =>
      have hout : TxExt st.tx
          (st.tx.addOutput (sporeOutputFor signer version item id)
            (packRawSporeData item.data)) := txExt_addOutput _ _ _
      split
      · exact hout
      · exact hout
      · split
        · exact hout
        · exact txExt_trans hout (createClusterResolve_ext signer _ _ _)

theorem createSporesLoop_ext (signer : Signer) (clusterMode : Option ClusterMode)
    (version : Nat) (items : List SporeCreateItem) (st : CreateSt) :
    TxExt st.tx (errTxOr (fun s => s.tx)
      (createSporesLoop signer clusterMode version items st)) := by
  induction items generalizing st with
  | nil => exact txExt_refl _
  | cons item rest ih =>
    unfold createSporesLoop
    have hstep := createSporeStep_ext signer clusterMode version item st
    cases hc : createSporeStep signer clusterMode version item st with
    | error e => rw [hc] at hstep; simpa [errTxOr] using hstep
    | ok st' =>
      rw [hc] at hstep
      exact txExt_trans (by simpa [errTxOr] using hstep) (ih st')

theorem injectOneCapacityCell_witnesses (signer : Signer) (tx : Tx) :
    (errTxOr id (injectOneCapacityCell signer tx)).witnesses = tx.witnesses := by
  unfold injectOneCapacityCell
  split <;> rfl

theorem createClusterLockProxy_witnesses (signer : Signer) (cluster : Cell) (tx : Tx) :
    (errTxOr id (createClusterLockProxy signer cluster tx)).witnesses = tx.witnesses := by
  unfold createClusterLockProxy
  dsimp only
  split
  · next e heq =>
    split at heq
    · split at heq
      · injection heq with h
        subst h
        rfl
      · exact absurd heq (by simp)
    · exact absurd heq (by simp)
  · next tx1 heq =>
    have h1 : tx1.witnesses = tx.witnesses := by
      split at heq
      · split at heq
        · exact absurd heq (by simp)
        · injection heq with h
          rw [← h, pushInput_witnesses]
      · injection heq with h
        rw [← h]
    simp only [errTxOr, id_eq]
    rw [addCellDep_witnesses]
    split
    · rw [addOutput_witnesses, h1]
    · exact h1

theorem createClusterCellBranch_witnesses (cluster : Cell)
    (clusterCelldep : List CellDepInfo) (st : CreateSt) :
    (errTxOr (fun s => s.tx)
      (createClusterCellBranch cluster clusterCelldep st)).witnesses = st.tx.witnesses := by
  unfold createClusterCellBranch
  dsimp only
  have hchain :
      ((((st.tx.pushInput cluster.toInput).addOutput cluster.cellOutput
        cluster.outputData).addCellDep
        { outPoint := cluster.outPoint, depType := .code }).addCellDepInfos
        clusterCelldep).witnesses = st.tx.witnesses := by
    rw [addCellDepInfos_witnesses, addCellDep_witnesses, addOutput_witnesses, pushInput_witnesses]
  split <;> exact hchain

theorem createClusterResolve_witnesses (signer : Signer) (mode : ClusterMode)
    (cid : Nat) (st : CreateSt) :
    (errTxOr (fun s => s.tx)
      (createClusterResolve signer mode cid st)).witnesses = st.tx.witnesses := by
  unfold createClusterResolve
  split
  · rfl
  · next cluster clusterCelldep _ =>
    cases mode with
    | lockProxy =>
      have h := createClusterLockProxy_witnesses signer cluster st.tx
      dsimp only
      cases hc : createClusterLockProxy signer cluster st.tx with
      | error e => rw [hc] at h; simpa [errTxOr] using h
      | ok tx1 => rw [hc] at h; simpa [errTxOr] using h
    | clusterCell => exact createClusterCellBranch_witnesses cluster clusterCelldep st

theorem createSporeStep_witnesses (signer : Signer) (clusterMode : Option ClusterMode)
    (version : Nat) (item : SporeCreateItem) (st : CreateSt) :
    (errTxOr (fun s => s.tx)
      (createSporeStep signer clusterMode version item st)).witnesses = st.tx.witnesses := by
  unfold createSporeStep
  split
  · rfl
  · next id _ =>
    dsimp only
    split
    · exact addOutput_witnesses _ _ _
    · next createAction _ =>
      have hout : (st.tx.addOutput (sporeOutputFor signer version item id)
          (packRawSporeData item.data)).witnesses = st.tx.witnesses :=
        addOutput_witnesses _ _ _
      split
      · exact hout
      · exact hout
      · split
        · exact hout
        · next hmem =>
          rw [createClusterResolve_witnesses]
          exact hout

theorem createSporesLoop_witnesses (signer : Signer) (clusterMode : Option ClusterMode)
    (version : Nat) (items : List SporeCreateItem) (st : CreateSt) :
    (errTxOr (fun s => s.tx)
      (createSporesLoop signer clusterMode version items st)).witnesses = st.tx.witnesses := by
  induction items generalizing st with
  | nil => rfl
  | cons item rest ih =>
    unfold createSporesLoop
    have hstep := createSporeStep_witnesses signer clusterMode version item st
    cases hc : createSporeStep signer clusterMode version item st with
    | error e => rw [hc] at hstep; simpa [errTxOr] using hstep
    | ok st' =>
      rw [hc] at hstep
      simp only [errTxOr] at hstep
      rw [ih st', hstep]

theorem insertDedup_nodup {α : Type} [DecidableEq α] (l : List α) (x : α)
    (h : l.Nodup) : (insertDedup l x).Nodup := by
  unfold insertDedup
  split
  · exact h
  · next hnot => simpa [List.nodup_append] using ⟨h, hnot⟩

theorem insertDedup_mem_mono {α : Type} [DecidableEq α] {l : List α} {y : α}
    (x : α) (h : y ∈ l) : y ∈ insertDedup l x := by
  unfold insertDedup
  split
  · exact h
  · exact List.mem_append_left _ h

theorem insertDedup_mem_self {α : Type} [DecidableEq α] (l : List α) (x : α) :
    x ∈ insertDedup l x := by
  unfold insertDedup
  split
  · assumption
  · simp

theorem foldl_insertDedup_nodup {α : Type} [DecidableEq α] (ds : List α)
    (acc : List α) (h : acc.Nodup) : (ds.foldl insertDedup acc).Nodup := by
  induction ds generalizing acc with
  | nil => exact h
  | cons d rest ih => exact ih _ (insertDedup_nodup acc d h)

theorem foldl_insertDedup_mem_mono {α : Type} [DecidableEq α] (ds : List α)
    {acc : List α} {y : α} (h : y ∈ acc) : y ∈ ds.foldl insertDedup acc := by
  induction ds generalizing acc with
  | nil => exact h
  | cons d rest ih => exact ih (insertDedup_mem_mono d h)

theorem foldl_insertDedup_mem {α : Type} [DecidableEq α] (ds : List α)
    (acc : List α) {d : α} (h : d ∈ ds) : d ∈ ds.foldl insertDedup acc := by
  induction ds generalizing acc with
  | nil => exact absurd h (by simp)
  | cons d0 rest ih =>
    rcases List.mem_cons.mp h with h0 | hrest
    · subst h0
      exact foldl_insertDedup_mem_mono rest (insertDedup_mem_self acc d)
    · exact ih _ hrest

theorem addCellDepInfos_mem_mono (infos : List CellDepInfo) (tx : Tx) {d : CellDep}
    (h : d ∈ tx.cellDeps) : d ∈ (tx.addCellDepInfos infos).cellDeps := by
  obtain ⟨t, ht⟩ := (txExt_addCellDepInfos infos tx).2.2.2.1
  rw [ht]
  exact List.mem_append_left _ h

theorem addCellDepInfos_mem (infos : List CellDepInfo) (tx : Tx) {i : CellDepInfo}
    (h : i ∈ infos) : i.cellDep ∈ (tx.addCellDepInfos infos).cellDeps := by
  induction infos generalizing tx with
  | nil => exact absurd h (by simp)
  | cons i0 rest ih =>
    rw [addCellDepInfos_cons]
    rcases List.mem_cons.mp h with h0 | hrest
    · subst h0
      exact addCellDepInfos_mem_mono rest _ (addCellDep_mem tx i.cellDep)
    · exact ih _ hrest

/-- A transfer target together with the result of its live-cell lookup: the
located cell, the dependency infos the lookup returned, and the cell's type
script. -/
structure ResolvedTransfer where
  item : TransferItem
  cell : Cell
  deps : List CellDepInfo
  typeScript : Script

/-- The TransferSpore action `transferSpores` assembles for one resolved
spore: keyed by the (unchanged) type script, recording the consumed cell's
lock and the new lock. -/
def expectedTransferAction (r : ResolvedTransfer) : CobuildAction :=
  { scriptInfoHash := COBUILD_INFO_HASH,
    scriptHash := r.typeScript.hash,
    data := .transferSpore r.typeScript.args r.cell.cellOutput.lock r.item.dst }

theorem transferSporesLoop_eq (signer : Signer) (resolved : List ResolvedTransfer)
    (st : TransferSt)
    (h : ∀ r ∈ resolved, signer.client.findSpore r.item.id = some (r.cell, r.deps) ∧
      r.cell.cellOutput.type = some r.typeScript) :
    transferSporesLoop signer (resolved.map (fun r => r.item)) st =
      .ok { tx := { st.tx with
              inputs := st.tx.inputs ++ resolved.map (fun r => r.cell.toInput),
              outputs := st.tx.outputs ++
                resolved.map (fun r => transferredOutput r.item.dst r.cell),
              outputsData := st.tx.outputsData ++ resolved.map (fun r => r.cell.outputData) },
            actions := st.actions ++ resolved.map expectedTransferAction,
            celldeps := resolved.foldl (fun acc r => r.deps.foldl insertDedup acc) st.celldeps } := by
  induction resolved generalizing st with
  | nil =>
    simp [transferSporesLoop]
  | cons r rest ih =>
    obtain ⟨hf, ht⟩ := h r (by simp)
    have hstep : transferSporeStep signer r.item st =
        .ok { tx := (st.tx.pushInput r.cell.toInput).addOutput
                (transferredOutput r.item.dst r.cell) r.cell.outputData,
              actions := st.actions ++ [expectedTransferAction r],
              celldeps := r.deps.foldl insertDedup st.celldeps } := by
      unfold transferSporeStep
      rw [hf]
      simp [assembleTransferSporeAction, transferredOutput, ht, expectedTransferAction]
    simp only [List.map_cons]
    unfold transferSporesLoop
    rw [hstep]
    dsimp only
    rw [ih _ (fun rr hrr => h rr (List.mem_cons_of_mem r hrr))]
    simp [Tx.pushInput, Tx.addOutput, transferredOutput]

/-- A melt target together with the result of its live-cell lookup. -/
structure ResolvedMelt where
  sporeId : Nat
  cell : Cell
  deps : List CellDepInfo
  typeScript : Script

/-- The MeltSpore action `meltSpores` assembles for one resolved spore:
keyed by the consumed cell's type script, recording its lock. -/
def expectedMeltAction (r : ResolvedMelt) : CobuildAction :=
  { scriptInfoHash := COBUILD_INFO_HASH,
    scriptHash := r.typeScript.hash,
    data := .meltSpore r.typeScript.args r.cell.cellOutput.lock }

theorem meltSporesLoop_eq (signer : Signer) (resolved : List ResolvedMelt)
    (st : TransferSt)
    (h : ∀ r ∈ resolved, signer.client.findSpore r.sporeId = some (r.cell, r.deps) ∧
      r.cell.cellOutput.type = some r.typeScript) :
    meltSporesLoop signer (resolved.map (fun r => r.sporeId)) st =
      .ok { tx := { st.tx with
              inputs := st.tx.inputs ++ resolved.map (fun r => r.cell.toInput) },
            actions := st.actions ++ resolved.map expectedMeltAction,
            celldeps := resolved.foldl (fun acc r => r.deps.foldl insertDedup acc) st.celldeps } := by
  induction resolved generalizing st with
  | nil =>
    simp [meltSporesLoop]
  | cons r rest ih =>
    obtain ⟨hf, ht⟩ := h r (by simp)
    have hstep : meltSporeStep signer r.sporeId st =
        .ok { tx := st.tx.pushInput r.cell.toInput,
              actions := st.actions ++ [expectedMeltAction r],
              celldeps := r.deps.foldl insertDedup st.celldeps } := by
      unfold meltSporeStep
      rw [hf]
      simp [assembleMeltSporeAction, ht, expectedMeltAction]
    simp only [List.map_cons]
    unfold meltSporesLoop
    rw [hstep]
    dsimp only
    rw [ih _ (fun rr hrr => h rr (List.mem_cons_of_mem r hrr))]
    simp [Tx.pushInput]

theorem transferSporeStep_ext (signer : Signer) (item : TransferItem) (st : TransferSt) :
    TxExt st.tx (errTxOr (fun s => s.tx) (transferSporeStep signer item st)) := by
  unfold transferSporeStep
  split
  · exact txExt_refl _
  · next sporeCell celldep _ =>
    dsimp only
    have hchain : TxExt st.tx ((st.tx.pushInput sporeCell.toInput).addOutput
        (transferredOutput item.dst sporeCell) sporeCell.outputData) :=
      txExt_trans (txExt_pushInput _ _) (txExt_addOutput _ _ _)
    split <;> exact hchain

theorem transferSporesLoop_ext (signer : Signer) (items : List TransferItem)
    (st : TransferSt) :
    TxExt st.tx (errTxOr (fun s => s.tx) (transferSporesLoop signer items st)) := by
  induction items generalizing st with
  | nil => exact txExt_refl _
  | cons item rest ih =>
    unfold transferSporesLoop
    have hstep := transferSporeStep_ext signer item st
    cases hc : transferSporeStep signer item st with
    | error e => rw [hc] at hstep; simpa [errTxOr] using hstep
    | ok st' =>
      rw [hc] at hstep
      exact txExt_trans (by simpa [errTxOr] using hstep) (ih st')

theorem meltSporeStep_ext (signer : Signer) (sporeId : Nat) (st : TransferSt) :
    TxExt st.tx (errTxOr (fun s => s.tx) (meltSporeStep signer sporeId st)) := by
  unfold meltSporeStep
  split
  · exact txExt_refl _
  · next sporeCell celldep _ =>
    dsimp only
    split <;> exact txExt_pushInput _ _

theorem meltSporesLoop_ext (signer : Signer) (ids : List Nat) (st : TransferSt) :
    TxExt st.tx (errTxOr (fun s => s.tx) (meltSporesLoop signer ids st)) := by
  induction ids generalizing st with
  | nil => exact txExt_refl _
  | cons sporeId rest ih =>
    unfold meltSporesLoop
    have hstep := meltSporeStep_ext signer sporeId st
    cases hc : meltSporeStep signer sporeId st with
    | error e => rw [hc] at hstep; simpa [errTxOr] using hstep
    | ok st' =>
      rw [hc] at hstep
      exact txExt_trans (by simpa [errTxOr] using hstep) (ih st')

theorem transferSporeStep_frame (signer : Signer) (item : TransferItem) (st : TransferSt) :
    (errTxOr (fun s => s.tx) (transferSporeStep signer item st)).witnesses
        = st.tx.witnesses ∧
    (errTxOr (fun s => s.tx) (transferSporeStep signer item st)).cellDeps
        = st.tx.cellDeps := by
  unfold transferSporeStep
  split
  · exact ⟨rfl, rfl⟩
  · next sporeCell celldep _ =>
    dsimp only
    split <;> exact ⟨rfl, rfl⟩

theorem transferSporesLoop_frame (signer : Signer) (items : List TransferItem)
    (st : TransferSt) :
    (errTxOr (fun s => s.tx) (transferSporesLoop signer items st)).witnesses
        = st.tx.witnesses ∧
    (errTxOr (fun s => s.tx) (transferSporesLoop signer items st)).cellDeps
        = st.tx.cellDeps := by
  induction items generalizing st with
  | nil => exact ⟨rfl, rfl⟩
  | cons item rest ih =>
    unfold transferSporesLoop
    have hstep := transferSporeStep_frame signer item st
    cases hc : transferSporeStep signer item st with
    | error e => rw [hc] at hstep; simpa [errTxOr] using hstep
    | ok st' =>
      rw [hc] at hstep
      simp only [errTxOr] at hstep
      obtain ⟨ihw, ihd⟩ := ih st'
      exact ⟨ihw.trans hstep.1, ihd.trans hstep.2⟩

theorem meltSporeStep_frame (signer : Signer) (sporeId : Nat) (st : TransferSt) :
    (errTxOr (fun s => s.tx) (meltSporeStep signer sporeId st)).witnesses
        = st.tx.witnesses ∧
    (errTxOr (fun s => s.tx) (meltSporeStep signer sporeId st)).cellDeps
        = st.tx.cellDeps := by
  unfold meltSporeStep
  split
  · exact ⟨rfl, rfl⟩
  · next sporeCell celldep _ =>
    dsimp only
    split <;> exact ⟨rfl, rfl⟩

theorem meltSporesLoop_frame (signer : Signer) (ids : List Nat) (st : TransferSt) :
    (errTxOr (fun s => s.tx) (meltSporesLoop signer ids st)).witnesses
        = st.tx.witnesses ∧
    (errTxOr (fun s => s.tx) (meltSporesLoop signer ids st)).cellDeps
        = st.tx.cellDeps := by
  induction ids generalizing st with
  | nil => exact ⟨rfl, rfl⟩
  | cons sporeId rest ih =>
    unfold meltSporesLoop
    have hstep := meltSporeStep_frame signer sporeId st
    cases hc : meltSporeStep signer sporeId st with
    | error e => rw [hc] at hstep; simpa [errTxOr] using hstep
    | ok st' =>
      rw [hc] at hstep
      simp only [errTxOr] at hstep
      obtain ⟨ihw, ihd⟩ := ih st'
      exact ⟨ihw.trans hstep.1, ihd.trans hstep.2⟩

theorem inject_witnesses_eq (tx : Tx) (actions : List CobuildAction) :
    (injectCommonCobuildProof tx actions).witnesses
      = tx.witnesses ++ [Witness.cobuild actions] := rfl

theorem countCobuild_snoc_cobuild (ws : List Witness) (actions : List CobuildAction) :
    countCobuildWitnesses (ws ++ [Witness.cobuild actions])
      = countCobuildWitnesses ws + 1 := by
  simp [countCobuildWitnesses, Witness.isCobuild]

theorem finalizeTx_cobuild (signer : Signer) (tx : Tx) (actions : List CobuildAction)
    (h : signer.client.cobuild = true) :
    finalizeTx signer tx actions = signer.prep (injectCommonCobuildProof tx actions) := by
  unfold finalizeTx cobuildRequired prepareSporeTransaction
  rw [h]
  rfl

theorem finalizeTx_plain (signer : Signer) (tx : Tx) (actions : List CobuildAction)
    (h : signer.client.cobuild = false) :
    finalizeTx signer tx actions = signer.prep tx := by
  unfold finalizeTx cobuildRequired
  rw [h]
  rfl

theorem createSpores_ok_shape {signer : Signer} {spores : List SporeCreateItem}
    {clusterMode : Option ClusterMode} {version : Nat} {txl : Option Tx}
    {r : Tx} {ids : List Nat}
    (h : createSpores signer spores clusterMode version txl = .ok (r, ids)) :
    ∃ tx1 st,
      (if (txl.getD emptyTx).inputs.length = 0
        then injectOneCapacityCell signer (txl.getD emptyTx)
        else .ok (txl.getD emptyTx)) = .ok tx1 ∧
      createSporesLoop signer clusterMode version spores
        { tx := tx1, actions := [], ids := [], processed := [] } = .ok st ∧
      r = finalizeTx signer (st.tx.addCellDepInfos signer.client.sporeDeps) st.actions ∧
      ids = st.ids := by
  unfold createSpores at h
  dsimp only at h
  split at h
  · exact absurd h (by simp)
  · next tx1 heq1 =>
    split at h
    · exact absurd h (by simp)
    · next st heq2 =>
      injection h with h'
      injection h' with hr hids
      exact ⟨tx1, st, heq1, heq2, hr.symm, hids.symm⟩

theorem createSpores_error_shape {signer : Signer} {spores : List SporeCreateItem}
    {clusterMode : Option ClusterMode} {version : Nat} {txl : Option Tx}
    {e : String} {t' : Tx}
    (h : createSpores signer spores clusterMode version txl = .error (e, t')) :
    (if (txl.getD emptyTx).inputs.length = 0
      then injectOneCapacityCell signer (txl.getD emptyTx)
      else .ok (txl.getD emptyTx)) = .error (e, t') ∨
    ∃ tx1,
      (if (txl.getD emptyTx).inputs.length = 0
        then injectOneCapacityCell signer (txl.getD emptyTx)
        else .ok (txl.getD emptyTx)) = .ok tx1 ∧
      createSporesLoop signer clusterMode version spores
        { tx := tx1, actions := [], ids := [], processed := [] } = .error (e, t') := by
  unfold createSpores at h
  dsimp only at h
  split at h
  · next heq1 =>
    injection h with h'
    exact Or.inl (h' ▸ heq1)
  · next tx1 heq1 =>
    split at h
    · next heq2 =>
      injection h with h'
      exact Or.inr ⟨tx1, heq1, h' ▸ heq2⟩
    · exact absurd h (by simp)

theorem transferSpores_ok_shape {signer : Signer} {spores : List TransferItem}
    {txl : Option Tx} {r : Tx}
    (h : transferSpores signer spores txl = .ok r) :
    ∃ st,
      transferSporesLoop signer spores
        { tx := txl.getD emptyTx, actions := [], celldeps := [] } = .ok st ∧
      r = finalizeTx signer (st.tx.addCellDepInfos st.celldeps) st.actions := by
  unfold transferSpores at h
  dsimp only at h
  split at h
  · exact absurd h (by simp)
  · next st heq =>
    injection h with h'
    exact ⟨st, heq, h'.symm⟩

theorem transferSpores_error_shape {signer : Signer} {spores : List TransferItem}
    {txl : Option Tx} {e : String} {t' : Tx}
    (h : transferSpores signer spores txl = .error (e, t')) :
    transferSporesLoop signer spores
      { tx := txl.getD emptyTx, actions := [], celldeps := [] } = .error (e, t') := by
  unfold transferSpores at h
  dsimp only at h
  split at h
  · next heq =>
    injection h with h'
    exact h' ▸ heq
  · exact absurd h (by simp)

theorem meltSpores_ok_shape {signer : Signer} {ids : List Nat}
    {txl : Option Tx} {r : Tx}
    (h : meltSpores signer ids txl = .ok r) :
    ∃ st,
      meltSporesLoop signer ids
        { tx := txl.getD emptyTx, actions := [], celldeps := [] } = .ok st ∧
      r = finalizeTx signer (st.tx.addCellDepInfos st.celldeps) st.actions := by
  unfold meltSpores at h
  dsimp only at h
  split at h
  · exact absurd h (by simp)
  · next st heq =>
    injection h with h'
    exact ⟨st, heq, h'.symm⟩

theorem meltSpores_error_shape {signer : Signer} {ids : List Nat}
    {txl : Option Tx} {e : String} {t' : Tx}
    (h : meltSpores signer ids txl = .error (e, t')) :
    meltSporesLoop signer ids
      { tx := txl.getD emptyTx, actions := [], celldeps := [] } = .error (e, t') := by
  unfold meltSpores at h
  dsimp only at h
  split at h
  · next heq =>
    injection h with h'
    exact h' ▸ heq
  · exact absurd h (by simp)

/-- The CreateSpore action assembled by the `createSpores` loop for an item
whose derived identifier is `id`. -/
def expectedCreateAction (signer : Signer) (version : Nat) (item : SporeCreateItem)
    (id : Nat) : CobuildAction :=
  { scriptInfoHash := COBUILD_INFO_HASH,
    scriptHash := (buildSporeScript .spore id version).hash,
    data := .createSpore (buildSporeScript .spore id version).args
      (hashCkb (packRawSporeData item.data)) (item.dst.getD signer.lock) }

theorem createSporeStep_none_eq (signer : Signer) (version : Nat)
    (item : SporeCreateItem) (st : CreateSt) (id : Nat)
    (h : computeTypeId st.tx st.tx.outputs.length = some id) :
    createSporeStep signer none version item st = .ok
      { tx := st.tx.addOutput (sporeOutputFor signer version item id)
          (packRawSporeData item.data),
        actions := st.actions ++ [expectedCreateAction signer version item id],
        ids := st.ids ++ [id], processed := st.processed } := by
  unfold createSporeStep
  rw [h]
  simp [assembleCreateSporeAction, sporeOutputFor, expectedCreateAction]

theorem prepareClusterLockProxy_ext (signer : Signer) (cluster : Cell) (tx : Tx) :
    TxExt tx (errTxOr (fun p => p.1) (prepareClusterLockProxy signer cluster tx)) := by
  unfold prepareClusterLockProxy
  dsimp only
  split
  · next e heq =>
    split at heq
    · split at heq
      · injection heq with h
        subst h
        exact txExt_refl tx
      · exact absurd heq (by simp)
    · exact absurd heq (by simp)
  · next tx1 heq =>
    have hext : TxExt tx tx1 := by
      split at heq
      · split at heq
        · exact absurd heq (by simp)
        · injection heq with h
          exact h ▸ txExt_pushInput tx _
      · injection heq with h
        exact h ▸ txExt_refl tx
    refine txExt_trans hext (txExt_trans ?_ (txExt_addCellDep _ _))
    split
    · exact txExt_addOutput tx1 _ _
    · exact txExt_refl tx1

theorem prepareClusterLockProxy_ok_none {signer : Signer} {cluster : Cell} {tx : Tx}
    {p : Tx × Option CobuildAction}
    (h : prepareClusterLockProxy signer cluster tx = .ok p) : p.2 = none := by
  unfold prepareClusterLockProxy at h
  dsimp only at h
  split at h
  · exact absurd h (by simp)
  · injection h with h'
    rw [← h']

theorem prepareClusterCellBranch_ext (signer : Signer) (cluster : Cell)
    (scriptInfo : SporeScriptInfo) (tx : Tx) :
    TxExt tx (errTxOr (fun p => p.1)
      (prepareClusterCellBranch signer cluster scriptInfo tx)) := by
  unfold prepareClusterCellBranch
  have hchain : TxExt tx ((((tx.pushInput cluster.toInput).addOutput cluster.cellOutput
      cluster.outputData).addCellDepInfos scriptInfo.cellDeps).addCellDep
      { outPoint := cluster.outPoint, depType := .code }) :=
    txExt_trans (txExt_pushInput _ _) (txExt_trans (txExt_addOutput _ _ _)
      (txExt_trans (txExt_addCellDepInfos _ _) (txExt_addCellDep _ _)))
  split
  · exact txExt_refl tx
  · dsimp only
    split
    · split <;> exact hchain
    · exact hchain

theorem prepareCluster_ext (signer : Signer) (tx : Tx) (data : SporeData)
    (clusterMode : Option PrepClusterMode) :
    TxExt tx (errTxOr (fun p => p.1) (prepareCluster signer tx data clusterMode)) := by
  unfold prepareCluster
  split
  · exact txExt_refl tx
  · split
    · exact txExt_refl tx
    · split
      · exact txExt_refl tx
      · split
        · exact txExt_refl tx
        · next cluster scriptInfo _ =>
          split
          · exact txExt_refl tx
          · exact prepareClusterLockProxy_ext signer cluster tx
          · exact prepareClusterCellBranch_ext signer cluster scriptInfo tx

theorem prepareCluster_undefined_mode (signer : Signer) (tx : Tx) (data : SporeData)
    (cid : Nat) (h : data.clusterId = some cid) :
    prepareCluster signer tx data none =
      .error ("clusterMode is undefined but the spore has a cluster", tx) := by
  unfold prepareCluster
  rw [h]
  simp

theorem prepareCluster_lockProxy_none {signer : Signer} {tx : Tx} {data : SporeData}
    {t' : Tx} {a : Option CobuildAction}
    (h : prepareCluster signer tx data (some PrepClusterMode.lockProxy) = .ok (t', a)) :
    a = none := by
  unfold prepareCluster at h
  split at h
  · injection h with h'
    injection h' with _ ha
    exact ha.symm
  · rw [if_neg (by decide)] at h
    dsimp only at h
    split at h
    · exact absurd h (by simp)
    · exact prepareClusterLockProxy_ok_none h

theorem createSpores_ok_seam {signer : Signer} {spores : List SporeCreateItem}
    {clusterMode : Option ClusterMode} {version : Nat} {txl : Option Tx}
    {r : Tx} {ids : List Nat}
    (h : createSpores signer spores clusterMode version txl = .ok (r, ids)) :
    ∃ seam acts, r = finalizeTx signer seam acts ∧
      seam.witnesses = (txl.getD emptyTx).witnesses := by
  obtain ⟨tx1, st, hinj, hloop, hr, _⟩ := createSpores_ok_shape h
  refine ⟨st.tx.addCellDepInfos signer.client.sporeDeps, st.actions, hr, ?_⟩
  rw [addCellDepInfos_witnesses]
  have hlw := createSporesLoop_witnesses signer clusterMode version spores
    { tx := tx1, actions := [], ids := [], processed := [] }
  rw [hloop] at hlw
  simp only [errTxOr] at hlw
  rw [hlw]
  have hiw := injectOneCapacityCell_witnesses signer (txl.getD emptyTx)
  split at hinj
  · rw [hinj] at hiw
    simpa [errTxOr] using hiw
  · injection hinj with h1
    rw [← h1]

theorem transferSpores_ok_seam {signer : Signer} {spores : List TransferItem}
    {txl : Option Tx} {r : Tx}
    (h : transferSpores signer spores txl = .ok r) :
    ∃ seam acts, r = finalizeTx signer seam acts ∧
      seam.witnesses = (txl.getD emptyTx).witnesses := by
  obtain ⟨st, hloop, hr⟩ := transferSpores_ok_shape h
  refine ⟨st.tx.addCellDepInfos st.celldeps, st.actions, hr, ?_⟩
  rw [addCellDepInfos_witnesses]
  have hlw := (transferSporesLoop_frame signer spores
    { tx := txl.getD emptyTx, actions := [], celldeps := [] }).1
  rw [hloop] at hlw
  simpa [errTxOr] using hlw

theorem meltSpores_ok_seam {signer : Signer} {ids : List Nat}
    {txl : Option Tx} {r : Tx}
    (h : meltSpores signer ids txl = .ok r) :
    ∃ seam acts, r = finalizeTx signer seam acts ∧
      seam.witnesses = (txl.getD emptyTx).witnesses := by
  obtain ⟨st, hloop, hr⟩ := meltSpores_ok_shape h
  refine ⟨st.tx.addCellDepInfos st.celldeps, st.actions, hr, ?_⟩
  rw [addCellDepInfos_witnesses]
  have hlw := (meltSporesLoop_frame signer ids
    { tx := txl.getD emptyTx, actions := [], celldeps := [] }).1
  rw [hloop] at hlw
  simpa [errTxOr] using hlw

/-- The TransferCluster action the clusterCell resolution emits: before and
after images are both the cluster's unchanged cell output. -/
def expectedTransferClusterAction (cluster : Cell) (T : Script) : CobuildAction :=
  { scriptInfoHash := COBUILD_INFO_HASH,
    scriptHash := T.hash,
    data := .transferCluster T.args cluster.cellOutput.lock cluster.cellOutput.lock }

/-- The skeleton produced by the standalone resolver's clusterCell branch on
a cluster not yet consumed. -/
def clusterCellAppliedTx (cluster : Cell) (scriptInfo : SporeScriptInfo) (tx : Tx) : Tx :=
  (((tx.pushInput cluster.toInput).addOutput cluster.cellOutput
    cluster.outputData).addCellDepInfos scriptInfo.cellDeps).addCellDep
    { outPoint := cluster.outPoint, depType := .code }

theorem prepareCluster_clusterCell_eq (signer : Signer) (tx : Tx) (data : SporeData)
    (cid : Nat) (cluster : Cell) (scriptInfo : SporeScriptInfo) (T : Script)
    (hcid : data.clusterId = some cid)
    (hassert : signer.client.assertCluster cid = some (cluster, scriptInfo))
    (hT : cluster.cellOutput.type = some T)
    (hfresh : tx.inputs.any (fun i => decide (i.previousOutput = cluster.outPoint)) = false) :
    prepareCluster signer tx data (some PrepClusterMode.clusterCell) =
      .ok (clusterCellAppliedTx cluster scriptInfo tx,
        if scriptInfo.cobuild then some (expectedTransferClusterAction cluster T) else none) := by
  unfold prepareCluster
  rw [hcid]
  dsimp only
  rw [if_neg (show ¬(some PrepClusterMode.clusterCell = some PrepClusterMode.skip) by decide)]
  rw [hassert]
  dsimp only
  unfold prepareClusterCellBranch
  rw [hfresh]
  rw [if_neg (show ¬(false = true) by simp)]
  dsimp only
  split
  · next hcb =>
    simp [hcb, clusterCellAppliedTx, assembleTransferClusterAction, hT,
      expectedTransferClusterAction]
  · next hcb =>
    rw [Bool.not_eq_true] at hcb
    simp [hcb, clusterCellAppliedTx]

/-- The skeleton produced by the clusterCell branch inlined in
`createSpores` (its dependency registrations come in the opposite order). -/
def createClusterCellAppliedTx (cluster : Cell) (clusterCelldep : List CellDepInfo)
    (tx : Tx) : Tx :=
  (((tx.pushInput cluster.toInput).addOutput cluster.cellOutput
    cluster.outputData).addCellDep
    { outPoint := cluster.outPoint, depType := .code }).addCellDepInfos clusterCelldep

theorem createClusterCellBranch_eq (cluster : Cell) (clusterCelldep : List CellDepInfo)
    (st : CreateSt) (T : Script) (hT : cluster.cellOutput.type = some T) :
    createClusterCellBranch cluster clusterCelldep st = .ok
      { st with
        tx := createClusterCellAppliedTx cluster clusterCelldep st.tx
        actions := st.actions ++ [expectedTransferClusterAction cluster T] } := by
  unfold createClusterCellBranch
  simp [assembleTransferClusterAction, hT, expectedTransferClusterAction,
    createClusterCellAppliedTx]

theorem assembleCreateSporeAction_ok_inv {signer : Signer} {version : Nat}
    {item : SporeCreateItem} {id : Nat} {a : CobuildAction}
    (h : assembleCreateSporeAction (sporeOutputFor signer version item id)
      (packRawSporeData item.data) = .ok a) :
    a = expectedCreateAction signer version item id := by
  simp [assembleCreateSporeAction, sporeOutputFor, expectedCreateAction] at h
  exact h.symm

theorem createClusterResolve_lockProxy_actions {signer : Signer} {cid : Nat}
    {st st' : CreateSt}
    (h : createClusterResolve signer ClusterMode.lockProxy cid st = .ok st') :
    st'.actions = st.actions := by
  unfold createClusterResolve at h
  split at h
  · exact absurd h (by simp)
  · dsimp only at h
    split at h
    · exact absurd h (by simp)
    · injection h with h'
      rw [← h']

theorem createSporeStep_lockProxy_actions {signer : Signer} {version : Nat}
    {item : SporeCreateItem} {st st' : CreateSt}
    (h : createSporeStep signer (some ClusterMode.lockProxy) version item st = .ok st') :
    ∃ id, st'.actions = st.actions ++ [expectedCreateAction signer version item id] := by
  unfold createSporeStep at h
  split at h
  · exact absurd h (by simp)
  · next id _ =>
    refine ⟨id, ?_⟩
    dsimp only at h
    split at h
    · exact absurd h (by simp)
    · next a ha =>
      have ha' := assembleCreateSporeAction_ok_inv ha
      subst ha'
      cases hci : item.data.clusterId with
      | none =>
        rw [hci] at h
        dsimp only at h
        injection h with h'
        rw [← h']
      | some cid =>
        rw [hci] at h
        dsimp only at h
        split at h
        · injection h with h'
          rw [← h']
        · exact createClusterResolve_lockProxy_actions h

theorem createSporesLoop_lockProxy_actions {signer : Signer} {version : Nat}
    {items : List SporeCreateItem} {st st' : CreateSt}
    (h : createSporesLoop signer (some ClusterMode.lockProxy) version items st = .ok st') :
    st'.actions.length = st.actions.length + items.length ∧
    ∀ a ∈ st'.actions, a ∈ st.actions ∨ a.data.isCreateSpore = true := by
  induction items generalizing st with
  | nil =>
    unfold createSporesLoop at h
    injection h with h'
    subst h'
    exact ⟨rfl, fun a ha => Or.inl ha⟩
  | cons item rest ih =>
    unfold createSporesLoop at h
    split at h
    · exact absurd h (by simp)
    · next st1 hstep =>
      obtain ⟨id, hact⟩ := createSporeStep_lockProxy_actions hstep
      obtain ⟨ihl, ihm⟩ := ih h
      constructor
      · rw [ihl, hact]
        simp [Nat.add_assoc, Nat.add_comm 1]
      · intro a ha
        rcases ihm a ha with hmem | hcs
        · rw [hact] at hmem
          rcases List.mem_append.mp hmem with h1 | h2
          · exact Or.inl h1
          · refine Or.inr ?_
            have : a = expectedCreateAction signer version item id := by simpa using h2
            rw [this]
            rfl
        · exact Or.inr hcs

theorem createSporesLoop_single_none (signer : Signer) (version : Nat)
    (item : SporeCreateItem) (tx1 : Tx) (id : Nat)
    (h : computeTypeId tx1 tx1.outputs.length = some id) :
    createSporesLoop signer none version [item]
      { tx := tx1, actions := [], ids := [], processed := [] } =
    .ok { tx := tx1.addOutput (sporeOutputFor signer version item id)
            (packRawSporeData item.data),
          actions := [expectedCreateAction signer version item id],
          ids := [id], processed := [] } := by
  unfold createSporesLoop
  rw [createSporeStep_none_eq signer version item
    { tx := tx1, actions := [], ids := [], processed := [] } id h]
  dsimp only
  unfold createSporesLoop
  simp

theorem inject_inputs (tx : Tx) (actions : List CobuildAction) :
    (injectCommonCobuildProof tx actions).inputs = tx.inputs := rfl

theorem inject_outputs (tx : Tx) (actions : List CobuildAction) :
    (injectCommonCobuildProof tx actions).outputs = tx.outputs := rfl

theorem inject_outputsData (tx : Tx) (actions : List CobuildAction) :
    (injectCommonCobuildProof tx actions).outputsData = tx.outputsData := rfl

theorem inject_cellDeps (tx : Tx) (actions : List CobuildAction) :
    (injectCommonCobuildProof tx actions).cellDeps = tx.cellDeps := rfl

/-- Claim C7: each action assembler raises the fatal error "... must have a
type script" exactly when a passed cell lacks a type script; otherwise it
returns an action whose `scriptHash` is the hash of the cell's type script
(the output's for transfers, the consumed cell's for melt), whose
`scriptInfoHash` is the fixed constant `COBUILD_INFO_HASH`, and — for the
Create assemblers — whose payload carries the hash of the packed data. -/
theorem c7_assemblers_characterization :
    (∀ (o : CellOutput) (d : Bytes),
      ((∃ e, assembleCreateSporeAction o d = .error e) ↔ o.type = none) ∧
      (o.type = none →
        assembleCreateSporeAction o d = .error "Spore cell must have a type script") ∧
      (∀ T, o.type = some T → assembleCreateSporeAction o d =
        .ok { scriptInfoHash := COBUILD_INFO_HASH, scriptHash := T.hash,
              data := .createSpore T.args (hashCkb d) o.lock })) ∧
    (∀ (i o : CellOutput),
      ((∃ e, assembleTransferSporeAction i o = .error e) ↔ (i.type = none ∨ o.type = none)) ∧
      ((i.type = none ∨ o.type = none) →
        assembleTransferSporeAction i o = .error "Spore cell must have a type script") ∧
      (∀ Ti To, i.type = some Ti → o.type = some To → assembleTransferSporeAction i o =
        .ok { scriptInfoHash := COBUILD_INFO_HASH, scriptHash := To.hash,
              data := .transferSpore To.args i.lock o.lock })) ∧
    (∀ (i : CellOutput),
      ((∃ e, assembleMeltSporeAction i = .error e) ↔ i.type = none) ∧
      (i.type = none →
        assembleMeltSporeAction i = .error "Spore cell must have a type script") ∧
      (∀ T, i.type = some T → assembleMeltSporeAction i =
        .ok { scriptInfoHash := COBUILD_INFO_HASH, scriptHash := T.hash,
              data := .meltSpore T.args i.lock })) ∧
    (∀ (o : CellOutput) (d : Bytes),
      ((∃ e, assembleCreateClusterAction o d = .error e) ↔ o.type = none) ∧
      (o.type = none →
        assembleCreateClusterAction o d = .error "Cluster cell must have a type script") ∧
      (∀ T, o.type = some T → assembleCreateClusterAction o d =
        .ok { scriptInfoHash := COBUILD_INFO_HASH, scriptHash := T.hash,
              data := .createCluster T.args (hashCkb d) o.lock })) ∧
    (∀ (i o : CellOutput),
      ((∃ e, assembleTransferClusterAction i o = .error e) ↔ (i.type = none ∨ o.type = none)) ∧
      ((i.type = none ∨ o.type = none) →
        assembleTransferClusterAction i o = .error "Cluster cell must have a type script") ∧
      (∀ Ti To, i.type = some Ti → o.type = some To → assembleTransferClusterAction i o =
        .ok { scriptInfoHash := COBUILD_INFO_HASH, scriptHash := To.hash,
              data := .transferCluster To.args i.lock o.lock })) := by
  refine ⟨?_, ?_, ?_, ?_, ?_⟩
  · intro o d
    cases ho : o.type <;>
      simp [assembleCreateSporeAction, ho]
  · intro i o
    cases hi : i.type <;> cases ho : o.type <;>
      simp [assembleTransferSporeAction, hi, ho]
  · intro i
    cases hi : i.type <;>
      simp [assembleMeltSporeAction, hi]
  · intro o d
    cases ho : o.type <;>
      simp [assembleCreateClusterAction, ho]
  · intro i o
    cases hi : i.type <;> cases ho : o.type <;>
      simp [assembleTransferClusterAction, hi, ho]

/-- Claim C7 witness: the characterization applied to the example spore cell
(which carries the Spore type script) and to a typeless cell output. -/
theorem c7_witness :
    assembleCreateSporeAction sporeCellEx.cellOutput [1] =
      .ok { scriptInfoHash := COBUILD_INFO_HASH, scriptHash := sporeTypeEx.hash,
            data := .createSpore sporeTypeEx.args (hashCkb [1]) sporeCellEx.cellOutput.lock } ∧
    assembleMeltSporeAction proxyCellEx.cellOutput =
      .error "Spore cell must have a type script" :=
  ⟨(c7_assemblers_characterization.1 sporeCellEx.cellOutput [1]).2.2 sporeTypeEx rfl,
   (c7_assemblers_characterization.2.2.1 proxyCellEx.cellOutput).2.1 rfl⟩

/-- Claim C10: lockProxy resolution never emits an action — the standalone
resolver returns no action in lockProxy mode, and a `createSpores` run in
lockProxy mode collects exactly one action per spore, every one of them a
CreateSpore (none contributed by the resolution). -/
theorem c10_lockProxy_no_action :
    (∀ (signer : Signer) (tx : Tx) (data : SporeData) (t' : Tx) (a : Option CobuildAction),
      prepareCluster signer tx data (some PrepClusterMode.lockProxy) = .ok (t', a) →
      a = none) ∧
    (∀ (signer : Signer) (spores : List SporeCreateItem) (version : Nat) (txl : Option Tx)
        (r : Tx) (ids : List Nat),
      createSpores signer spores (some ClusterMode.lockProxy) version txl = .ok (r, ids) →
      ∃ seam acts, r = finalizeTx signer seam acts ∧ acts.length = spores.length ∧
        ∀ a ∈ acts, a.data.isCreateSpore = true) := by
  constructor
  · intro signer tx data t' a h
    exact prepareCluster_lockProxy_none h
  · intro signer spores version txl r ids h
    obtain ⟨tx1, st, _, hloop, hr, _⟩ := createSpores_ok_shape h
    obtain ⟨hlen, hmem⟩ := createSporesLoop_lockProxy_actions hloop
    refine ⟨st.tx.addCellDepInfos signer.client.sporeDeps, st.actions, hr, ?_, ?_⟩
    · simpa using hlen
    · intro a ha
      rcases hmem a ha with hmem' | hcs
      · exact absurd hmem' (by simp)
      · exact hcs

/-- The skeleton produced by a concrete lockProxy resolution. -/
def c10PrepTx : Tx :=
  errTxOr (fun p => p.1)
    (prepareCluster signerEx emptyTx dataClusteredEx (some PrepClusterMode.lockProxy))

/-- The result of a concrete clustered `createSpores` run in lockProxy mode. -/
def c10CreateRes : Tx × List Nat :=
  (createSpores signerEx [{ data := dataClusteredEx, dst := none }]
    (some ClusterMode.lockProxy) 0 none).toOption.getD (emptyTx, [])

/-- Claim C10 witness: the theorem applied to a concrete lockProxy run of
the standalone resolver and of `createSpores`. -/
theorem c10_witness :
    (none : Option CobuildAction) = none ∧
    (∃ seam acts, c10CreateRes.1 = finalizeTx signerEx seam acts ∧
      acts.length = 1 ∧ ∀ a ∈ acts, a.data.isCreateSpore = true) :=
  ⟨c10_lockProxy_no_action.1 signerEx emptyTx dataClusteredEx c10PrepTx none (by rfl),
   by
     have h := c10_lockProxy_no_action.2 signerEx
       [{ data := dataClusteredEx, dst := none }] 0 none
       c10CreateRes.1 c10CreateRes.2 (by rfl)
     simpa using h⟩

/-- Claim C1 counterexample: `createSpores` called with `clusterMode`
undefined on a spore whose data declares cluster 77 succeeds — no fatal
configuration error is raised — while the spore's output is still appended
and no cluster resolution happens (the only registered dependency is the
Spore protocol dependency), contradicting the claim that the error is
raised before any output for that spore is appended. -/
theorem c1_counterexample :
    (createSpores signerEx [{ data := dataClusteredEx, dst := none }] none 0 none).isOk
      = true ∧
    dataClusteredEx.clusterId = some 77 ∧
    (errTxOr (fun p => p.1)
      (createSpores signerEx [{ data := dataClusteredEx, dst := none }]
        none 0 none)).outputs.length = 1 ∧
    (errTxOr (fun p => p.1)
      (createSpores signerEx [{ data := dataClusteredEx, dst := none }]
        none 0 none)).cellDeps = [depInfoB.cellDep] :=
  ⟨rfl, rfl, rfl, rfl⟩

/-- Claim C1 (amended): `createSpores` does not raise the error — with
`clusterMode` undefined the loop appends the spore output, records the
identifier and the CreateSpore action, and silently skips all cluster
handling; it is the standalone `prepareCluster` that raises the fatal
configuration error "clusterMode is undefined but the spore has a cluster",
before any mutation of the skeleton, whenever the data declares a clusterId
and the mode is undefined. -/
theorem c1_undefined_clusterMode :
    (∀ (signer : Signer) (tx : Tx) (data : SporeData) (cid : Nat),
      data.clusterId = some cid →
      prepareCluster signer tx data none =
        .error ("clusterMode is undefined but the spore has a cluster", tx)) ∧
    (∀ (signer : Signer) (version : Nat) (item : SporeCreateItem) (st : CreateSt)
        (id : Nat),
      computeTypeId st.tx st.tx.outputs.length = some id →
      createSporeStep signer none version item st = .ok
        { tx := st.tx.addOutput (sporeOutputFor signer version item id)
            (packRawSporeData item.data),
          actions := st.actions ++ [expectedCreateAction signer version item id],
          ids := st.ids ++ [id], processed := st.processed }) :=
  ⟨prepareCluster_undefined_mode, createSporeStep_none_eq⟩

/-- The skeleton holding only the injected capacity cell. -/
def c1TxEx : Tx := emptyTx.pushInput capCellEx.toInput

/-- The identifier derived for the first output over `c1TxEx`. -/
def c1IdEx : Nat := (computeTypeId c1TxEx 0).getD 0

/-- Claim C1 witness: the amended statement applied at concrete inputs —
`prepareCluster` raises the configuration error on clustered data with no
mode, and the `createSpores` loop body succeeds and silently skips cluster
handling on the same data. -/
theorem c1_witness :
    prepareCluster signerEx emptyTx dataClusteredEx none =
      .error ("clusterMode is undefined but the spore has a cluster", emptyTx) ∧
    createSporeStep signerEx none 0 { data := dataClusteredEx, dst := none }
      { tx := c1TxEx, actions := [], ids := [], processed := [] } = .ok
      { tx := c1TxEx.addOutput
          (sporeOutputFor signerEx 0 { data := dataClusteredEx, dst := none } c1IdEx)
          (packRawSporeData dataClusteredEx),
        actions := [expectedCreateAction signerEx 0
          { data := dataClusteredEx, dst := none } c1IdEx],
        ids := [c1IdEx], processed := [] } :=
  ⟨c1_undefined_clusterMode.1 signerEx emptyTx dataClusteredEx 77 rfl,
   by
     have h := c1_undefined_clusterMode.2 signerEx 0
       { data := dataClusteredEx, dst := none }
       { tx := c1TxEx, actions := [], ids := [], processed := [] } c1IdEx (by rfl)
     simpa using h⟩

/-- The skeleton after a first lockProxy resolution of cluster 77 on an
empty transaction. -/
def c2FirstTx : Tx :=
  errTxOr (fun p => p.1)
    (prepareCluster signerEx emptyTx dataClusteredEx (some PrepClusterMode.lockProxy))

/-- The skeleton after resolving the same cluster a second time. -/
def c2SecondTx : Tx :=
  errTxOr (fun p => p.1)
    (prepareCluster signerEx c2FirstTx dataClusteredEx (some PrepClusterMode.lockProxy))

/-- Claim C2 (code bug): the first lockProxy resolution of cluster 77 on an
empty skeleton pushes the proxy input at index 0; the second resolution of
the same cluster against the resulting skeleton finds that input at index 0,
but the guard `if (!lockProxyInputIndex)` treats the JavaScript-falsy index
0 as "not found" and pushes the proxy input a second time — the skeleton
ends with two identical proxy inputs instead of one, against the documented
idempotency (the output and cell-dependency checks do deduplicate). -/
theorem c2_falsy_index_duplicates_input :
    prepareCluster signerEx emptyTx dataClusteredEx (some PrepClusterMode.lockProxy)
      = .ok (c2FirstTx, none) ∧
    prepareCluster signerEx c2FirstTx dataClusteredEx (some PrepClusterMode.lockProxy)
      = .ok (c2SecondTx, none) ∧
    c2FirstTx.inputs = [proxyCellEx.toInput] ∧
    c2SecondTx.inputs = [proxyCellEx.toInput, proxyCellEx.toInput] ∧
    c2SecondTx.outputs = c2FirstTx.outputs ∧
    c2SecondTx.cellDeps = c2FirstTx.cellDeps ∧
    c2FirstTx.findInputIndexByLock clusterCellEx.cellOutput.lock
      signerEx.client.resolveOut = some 0 :=
  ⟨rfl, rfl, rfl, rfl, rfl, rfl, rfl⟩

/-- The result of a concrete plain `createSpores` call. -/
def c4Res : Tx × List Nat :=
  (createSpores signerEx [{ data := dataPlainEx, dst := none }]
    none 0 none).toOption.getD (emptyTx, [])

theorem foldl_insertDedup_outer_mem_mono {β : Type} (f : β → List CellDepInfo)
    (l : List β) {acc : List CellDepInfo} {d : CellDepInfo} (h : d ∈ acc) :
    d ∈ l.foldl (fun acc r => (f r).foldl insertDedup acc) acc := by
  induction l generalizing acc with
  | nil => exact h
  | cons b rest ih => exact ih (foldl_insertDedup_mem_mono _ h)

theorem foldl_insertDedup_outer_mem {β : Type} (f : β → List CellDepInfo)
    (l : List β) (acc : List CellDepInfo) {b : β} (hb : b ∈ l) {d : CellDepInfo}
    (hd : d ∈ f b) : d ∈ l.foldl (fun acc r => (f r).foldl insertDedup acc) acc := by
  induction l generalizing acc with
  | nil => exact absurd hb (by simp)
  | cons b0 rest ih =>
    rcases List.mem_cons.mp hb with h0 | hrest
    · subst h0
      exact foldl_insertDedup_outer_mem_mono f rest (foldl_insertDedup_mem (f b) acc hd)
    · exact ih _ hrest

theorem finalize_cellDeps (signer : Signer) (tx : Tx) (acts : List CobuildAction)
    (hprep : ∀ t, (signer.prep t).cellDeps = t.cellDeps) :
    (finalizeTx signer tx acts).cellDeps = tx.cellDeps := by
  unfold finalizeTx prepareSporeTransaction
  split
  · rw [hprep, inject_cellDeps]
  · rw [hprep]

/-- Claim C5: across one `transferSpores` or `meltSpores` call the
cell-dependency infos accumulated from the per-entity lookups are registered
into the transaction as a set — starting from a duplicate-free dependency
list the resulting list is still duplicate-free, and (third part) every
dependency info returned by any lookup of the batch ends up in the resulting
transaction exactly once, even when lookups return overlapping sets. -/
theorem c5_celldep_dedup :
    (∀ (signer : Signer) (spores : List TransferItem) (txl : Option Tx) (r : Tx),
      transferSpores signer spores txl = .ok r →
      (txl.getD emptyTx).cellDeps.Nodup →
      (∀ t, (signer.prep t).cellDeps = t.cellDeps) →
      r.cellDeps.Nodup) ∧
    (∀ (signer : Signer) (ids : List Nat) (txl : Option Tx) (r : Tx),
      meltSpores signer ids txl = .ok r →
      (txl.getD emptyTx).cellDeps.Nodup →
      (∀ t, (signer.prep t).cellDeps = t.cellDeps) →
      r.cellDeps.Nodup) ∧
    (∀ (signer : Signer) (resolved : List ResolvedTransfer) (txl : Option Tx) (r : Tx),
      (∀ rr ∈ resolved, signer.client.findSpore rr.item.id = some (rr.cell, rr.deps) ∧
        rr.cell.cellOutput.type = some rr.typeScript) →
      transferSpores signer (resolved.map (fun rr => rr.item)) txl = .ok r →
      (txl.getD emptyTx).cellDeps.Nodup →
      (∀ t, (signer.prep t).cellDeps = t.cellDeps) →
      ∀ rr ∈ resolved, ∀ d ∈ rr.deps, List.count d.cellDep r.cellDeps = 1) := by
  refine ⟨?_, ?_, ?_⟩
  · intro signer spores txl r h h0 hprep
    obtain ⟨st, hloop, hr⟩ := transferSpores_ok_shape h
    have hdeps := (transferSporesLoop_frame signer spores
      { tx := txl.getD emptyTx, actions := [], celldeps := [] }).2
    rw [hloop] at hdeps
    simp only [errTxOr] at hdeps
    rw [hr, finalize_cellDeps signer _ _ hprep]
    exact addCellDepInfos_nodup _ _ (hdeps ▸ h0)
  · intro signer ids txl r h h0 hprep
    obtain ⟨st, hloop, hr⟩ := meltSpores_ok_shape h
    have hdeps := (meltSporesLoop_frame signer ids
      { tx := txl.getD emptyTx, actions := [], celldeps := [] }).2
    rw [hloop] at hdeps
    simp only [errTxOr] at hdeps
    rw [hr, finalize_cellDeps signer _ _ hprep]
    exact addCellDepInfos_nodup _ _ (hdeps ▸ h0)
  · intro signer resolved txl r hres h h0 hprep rr hrr d hd
    obtain ⟨st, hloop, hr⟩ := transferSpores_ok_shape h
    rw [transferSporesLoop_eq signer resolved _ hres] at hloop
    injection hloop with hst
    subst hst
    rw [hr, finalize_cellDeps signer _ _ hprep]
    dsimp only
    refine List.count_eq_one_of_mem (addCellDepInfos_nodup _ _ (by dsimp only; exact h0)) ?_
    refine addCellDepInfos_mem _ _ ?_
    exact foldl_insertDedup_outer_mem (fun rr => rr.deps) resolved _ hrr hd

/-- The result of a concrete `transferSpores` call whose lookup returns the
two overlapping dependency infos. -/
def c5Res : Tx :=
  (transferSpores signerEx [{ id := 55, dst := lockB }] none).toOption.getD emptyTx

/-- Claim C5 witness: the deduplication statement applied at a concrete
transfer whose lookup returns two dependency infos, and at the
corresponding resolved list, showing each registered dependency occurs
exactly once. -/
theorem c5_witness :
    c5Res.cellDeps.Nodup ∧
    List.count depInfoA.cellDep c5Res.cellDeps = 1 :=
  ⟨c5_celldep_dedup.1 signerEx [{ id := 55, dst := lockB }] none c5Res
      (by rfl) (by simp [emptyTx]) (fun t => rfl),
   c5_celldep_dedup.2.2 signerEx
      [{ item := { id := 55, dst := lockB }, cell := sporeCellEx,
         deps := [depInfoA, depInfoB], typeScript := sporeTypeEx }] none c5Res
      (by
        intro rr hrr
        rw [List.mem_singleton] at hrr
        subst hrr
        exact ⟨rfl, rfl⟩)
      (by rfl) (by simp [emptyTx]) (fun t => rfl)
      { item := { id := 55, dst := lockB }, cell := sporeCellEx,
        deps := [depInfoA, depInfoB], typeScript := sporeTypeEx }
      (by simp) depInfoA (by simp)⟩

theorem finalize_io (signer : Signer) (tx : Tx) (acts : List CobuildAction)
    (hprep : ∀ t, (signer.prep t).inputs = t.inputs ∧ (signer.prep t).outputs = t.outputs ∧
      (signer.prep t).outputsData = t.outputsData) :
    (finalizeTx signer tx acts).inputs = tx.inputs ∧
    (finalizeTx signer tx acts).outputs = tx.outputs ∧
    (finalizeTx signer tx acts).outputsData = tx.outputsData := by
  unfold finalizeTx prepareSporeTransaction
  split
  · refine ⟨?_, ?_, ?_⟩
    · rw [(hprep _).1, inject_inputs]
    · rw [(hprep _).2.1, inject_outputs]
    · rw [(hprep _).2.2, inject_outputsData]
  · exact hprep tx

/-- Claim C8: for every spore transferred by `transferSpores`, the located
cell is consumed as an input, the appended output carries the input cell's
type script and output data unchanged with the requested new lock, and
exactly one TransferSpore action is produced per spore, recording the input
cell's lock as before-image and the new lock as after-image, provided the
signer's generic preparation leaves inputs/outputs/output-data unchanged. -/
theorem c8_transfer_characterization (signer : Signer) (resolved : List ResolvedTransfer)
    (txl : Option Tx)
    (h : ∀ rr ∈ resolved, signer.client.findSpore rr.item.id = some (rr.cell, rr.deps) ∧
      rr.cell.cellOutput.type = some rr.typeScript)
    (hprep : ∀ t, (signer.prep t).inputs = t.inputs ∧ (signer.prep t).outputs = t.outputs ∧
      (signer.prep t).outputsData = t.outputsData)
    {r : Tx} (hr : transferSpores signer (resolved.map (fun rr => rr.item)) txl = .ok r) :
    r.inputs = (txl.getD emptyTx).inputs ++ resolved.map (fun rr => rr.cell.toInput) ∧
    r.outputs = (txl.getD emptyTx).outputs ++
      resolved.map (fun rr => transferredOutput rr.item.dst rr.cell) ∧
    r.outputsData = (txl.getD emptyTx).outputsData ++
      resolved.map (fun rr => rr.cell.outputData) ∧
    (∃ seam, r = finalizeTx signer seam (resolved.map expectedTransferAction)) ∧
    (∀ rr ∈ resolved,
      (transferredOutput rr.item.dst rr.cell).lock = rr.item.dst ∧
      (transferredOutput rr.item.dst rr.cell).type = rr.cell.cellOutput.type ∧
      (expectedTransferAction rr).data =
        SporeActionData.transferSpore rr.typeScript.args rr.cell.cellOutput.lock rr.item.dst) := by
  obtain ⟨st, hloop, hre⟩ := transferSpores_ok_shape hr
  rw [transferSporesLoop_eq signer resolved _ h] at hloop
  injection hloop with hst
  subst hst
  simp only [List.nil_append] at hre
  obtain ⟨hin, hout, hdat⟩ := finalize_io signer _ _ hprep
  refine ⟨?_, ?_, ?_, ⟨_, hre⟩, fun rr _ => ⟨rfl, rfl, rfl⟩⟩
  · rw [hre, hin, addCellDepInfos_inputs]
  · rw [hre, hout, addCellDepInfos_outputs]
  · rw [hre, hdat, addCellDepInfos_outputsData]

/-- The resolved view of the concrete transfer of spore 55 to `lockB`. -/
def c8Resolved : List ResolvedTransfer :=
  [{ item := { id := 55, dst := lockB }, cell := sporeCellEx,
     deps := [depInfoA, depInfoB], typeScript := sporeTypeEx }]

/-- Claim C8 witness: the characterization applied to the concrete transfer
of spore 55 to `lockB`. -/
theorem c8_witness :
    c5Res.inputs = ((none : Option Tx).getD emptyTx).inputs ++
      c8Resolved.map (fun rr => rr.cell.toInput) ∧
    c5Res.outputs = ((none : Option Tx).getD emptyTx).outputs ++
      c8Resolved.map (fun rr => transferredOutput rr.item.dst rr.cell) ∧
    c5Res.outputsData = ((none : Option Tx).getD emptyTx).outputsData ++
      c8Resolved.map (fun rr => rr.cell.outputData) ∧
    (∃ seam, c5Res = finalizeTx signerEx seam (c8Resolved.map expectedTransferAction)) ∧
    (∀ rr ∈ c8Resolved,
      (transferredOutput rr.item.dst rr.cell).lock = rr.item.dst ∧
      (transferredOutput rr.item.dst rr.cell).type = rr.cell.cellOutput.type ∧
      (expectedTransferAction rr).data =
        SporeActionData.transferSpore rr.typeScript.args rr.cell.cellOutput.lock rr.item.dst) :=
  c8_transfer_characterization signerEx c8Resolved none
    (by
      intro rr hrr
      rw [c8Resolved, List.mem_singleton] at hrr
      subst hrr
      exact ⟨rfl, rfl⟩)
    (fun t => ⟨rfl, rfl, rfl⟩)
    (by rfl)

theorem txExt_finalize (signer : Signer) (tx : Tx) (acts : List CobuildAction)
    (hp : ∀ t, TxExt t (signer.prep t)) : TxExt tx (finalizeTx signer tx acts) := by
  unfold finalizeTx prepareSporeTransaction
  split
  · exact txExt_trans (txExt_inject tx acts) (hp _)
  · exact hp tx

theorem createSpores_start_ext (signer : Signer) (txl : Option Tx) {tx1 : Tx}
    (hinj : (if (txl.getD emptyTx).inputs.length = 0
      then injectOneCapacityCell signer (txl.getD emptyTx)
      else .ok (txl.getD emptyTx)) = .ok tx1) :
    TxExt (txl.getD emptyTx) tx1 := by
  have hie := injectOneCapacityCell_ext signer (txl.getD emptyTx)
  split at hinj
  · rw [hinj] at hie
    simpa [errTxOr] using hie
  · injection hinj with h1
    exact h1 ▸ txExt_refl _

/-- Claim C9: every mutation the embedded operations perform on the skeleton
is a pure append — on any error the carried, partially-mutated skeleton
still extends the initial skeleton entry-by-entry (inputs, outputs,
output-data, cell-dependencies and witnesses are preserved at their
positions), and on success the result extends it as well, provided the
signer's generic preparation step is itself extension-preserving; the
standalone resolver and the Witness Packer satisfy the same frame
property unconditionally. -/
theorem c9_pure_append_frame :
    (∀ (signer : Signer) (spores : List SporeCreateItem) (clusterMode : Option ClusterMode)
        (version : Nat) (txl : Option Tx),
      (∀ e t', createSpores signer spores clusterMode version txl = .error (e, t') →
        TxExt (txl.getD emptyTx) t') ∧
      ((∀ t, TxExt t (signer.prep t)) → ∀ r ids,
        createSpores signer spores clusterMode version txl = .ok (r, ids) →
        TxExt (txl.getD emptyTx) r)) ∧
    (∀ (signer : Signer) (spores : List TransferItem) (txl : Option Tx),
      (∀ e t', transferSpores signer spores txl = .error (e, t') →
        TxExt (txl.getD emptyTx) t') ∧
      ((∀ t, TxExt t (signer.prep t)) → ∀ r,
        transferSpores signer spores txl = .ok r → TxExt (txl.getD emptyTx) r)) ∧
    (∀ (signer : Signer) (ids : List Nat) (txl : Option Tx),
      (∀ e t', meltSpores signer ids txl = .error (e, t') →
        TxExt (txl.getD emptyTx) t') ∧
      ((∀ t, TxExt t (signer.prep t)) → ∀ r,
        meltSpores signer ids txl = .ok r → TxExt (txl.getD emptyTx) r)) ∧
    (∀ (signer : Signer) (tx : Tx) (data : SporeData) (clusterMode : Option PrepClusterMode),
      (∀ e t', prepareCluster signer tx data clusterMode = .error (e, t') → TxExt tx t') ∧
      (∀ t' a, prepareCluster signer tx data clusterMode = .ok (t', a) → TxExt tx t')) ∧
    (∀ (tx : Tx) (acts : List CobuildAction), TxExt tx (injectCommonCobuildProof tx acts)) := by
  refine ⟨?_, ?_, ?_, ?_, txExt_inject⟩
  · intro signer spores clusterMode version txl
    constructor
    · intro e t' h
      rcases createSpores_error_shape h with hinj | ⟨tx1, hinj, hloop⟩
      · have hie := injectOneCapacityCell_ext signer (txl.getD emptyTx)
        split at hinj
        · rw [hinj] at hie
          simpa [errTxOr] using hie
        · exact absurd hinj (by simp)
      · have h1 := createSpores_start_ext signer txl hinj
        have h2 := createSporesLoop_ext signer clusterMode version spores
          { tx := tx1, actions := [], ids := [], processed := [] }
        rw [hloop] at h2
        exact txExt_trans h1 (by simpa [errTxOr] using h2)
    · intro hp r ids h
      obtain ⟨tx1, st, hinj, hloop, hr, _⟩ := createSpores_ok_shape h
      have h1 := createSpores_start_ext signer txl hinj
      have h2 := createSporesLoop_ext signer clusterMode version spores
        { tx := tx1, actions := [], ids := [], processed := [] }
      rw [hloop] at h2
      simp only [errTxOr] at h2
      rw [hr]
      exact txExt_trans h1 (txExt_trans h2 (txExt_trans
        (txExt_addCellDepInfos _ _) (txExt_finalize signer _ _ hp)))
  · intro signer spores txl
    constructor
    · intro e t' h
      have hloop := transferSpores_error_shape h
      have h2 := transferSporesLoop_ext signer spores
        { tx := txl.getD emptyTx, actions := [], celldeps := [] }
      rw [hloop] at h2
      simpa [errTxOr] using h2
    · intro hp r h
      obtain ⟨st, hloop, hr⟩ := transferSpores_ok_shape h
      have h2 := transferSporesLoop_ext signer spores
        { tx := txl.getD emptyTx, actions := [], celldeps := [] }
      rw [hloop] at h2
      simp only [errTxOr] at h2
      rw [hr]
      exact txExt_trans h2 (txExt_trans (txExt_addCellDepInfos _ _)
        (txExt_finalize signer _ _ hp))
  · intro signer ids txl
    constructor
    · intro e t' h
      have hloop := meltSpores_error_shape h
      have h2 := meltSporesLoop_ext signer ids
        { tx := txl.getD emptyTx, actions := [], celldeps := [] }
      rw [hloop] at h2
      simpa [errTxOr] using h2
    · intro hp r h
      obtain ⟨st, hloop, hr⟩ := meltSpores_ok_shape h
      have h2 := meltSporesLoop_ext signer ids
        { tx := txl.getD emptyTx, actions := [], celldeps := [] }
      rw [hloop] at h2
      simp only [errTxOr] at h2
      rw [hr]
      exact txExt_trans h2 (txExt_trans (txExt_addCellDepInfos _ _)
        (txExt_finalize signer _ _ hp))
  · intro signer tx data clusterMode
    have h := prepareCluster_ext signer tx data clusterMode
    constructor
    · intro e t' heq
      rw [heq] at h
      simpa [errTxOr] using h
    · intro t' a heq
      rw [heq] at h
      simpa [errTxOr] using h

/-- Claim C9 witness: the frame property applied to a concrete successful
`meltSpores` call (the identity preparation step is extension-preserving),
and to a concrete failing `transferSpores` call whose carried skeleton is
inspected at the abort point. -/
theorem c9_witness :
    TxExt ((none : Option Tx).getD emptyTx)
      ((meltSpores signerEx [55] none).toOption.getD emptyTx) ∧
    TxExt ((none : Option Tx).getD emptyTx) emptyTx :=
  ⟨(c9_pure_append_frame.2.2.1 signerEx [55] none).2 (fun t => txExt_refl t)
      ((meltSpores signerEx [55] none).toOption.getD emptyTx) (by rfl),
   (c9_pure_append_frame.2.1 signerEx [{ id := 99, dst := lockB }] none).1
      "Spore cell not found" emptyTx (by rfl)⟩

theorem clusterCellAppliedTx_fields (cluster : Cell) (si : SporeScriptInfo) (tx : Tx) :
    (clusterCellAppliedTx cluster si tx).inputs = tx.inputs ++ [cluster.toInput] ∧
    (clusterCellAppliedTx cluster si tx).outputs = tx.outputs ++ [cluster.cellOutput] ∧
    (clusterCellAppliedTx cluster si tx).outputsData = tx.outputsData ++ [cluster.outputData] ∧
    CellDep.mk cluster.outPoint DepType.code ∈ (clusterCellAppliedTx cluster si tx).cellDeps := by
  unfold clusterCellAppliedTx
  refine ⟨?_, ?_, ?_, addCellDep_mem _ _⟩
  · rw [addCellDep_inputs, addCellDepInfos_inputs]
    rfl
  · rw [addCellDep_outputs, addCellDepInfos_outputs]
    rfl
  · rw [addCellDep_outputsData, addCellDepInfos_outputsData]
    rfl

theorem createClusterCellAppliedTx_fields (cluster : Cell) (cd : List CellDepInfo) (tx : Tx) :
    (createClusterCellAppliedTx cluster cd tx).inputs = tx.inputs ++ [cluster.toInput] ∧
    (createClusterCellAppliedTx cluster cd tx).outputs = tx.outputs ++ [cluster.cellOutput] ∧
    (createClusterCellAppliedTx cluster cd tx).outputsData
      = tx.outputsData ++ [cluster.outputData] ∧
    CellDep.mk cluster.outPoint DepType.code ∈ (createClusterCellAppliedTx cluster cd tx).cellDeps := by
  unfold createClusterCellAppliedTx
  refine ⟨?_, ?_, ?_, addCellDepInfos_mem_mono _ _ (addCellDep_mem _ _)⟩
  · rw [addCellDepInfos_inputs, addCellDep_inputs]
    rfl
  · rw [addCellDepInfos_outputs, addCellDep_outputs]
    rfl
  · rw [addCellDepInfos_outputsData, addCellDep_outputsData]
    rfl

/-- Claim C6 (amended): on a clusterCell resolution of a not-yet-consumed
cluster, the cluster cell is consumed as an input and reproduced with
identical cell output and identical output data, and its out-point is
registered as a code cell-dependency, in both resolution paths; the
TransferCluster action (before-lock = after-lock = the cluster's lock) is
emitted unconditionally by the branch inlined in `createSpores`, but by the
standalone `prepareCluster` only when the cluster's script info declares
cobuild — with a non-cobuild script info the same cell movements happen and
no action is returned. -/
theorem c6_clusterCell_characterization :
    (∀ (signer : Signer) (tx : Tx) (data : SporeData) (cid : Nat) (cluster : Cell)
        (si : SporeScriptInfo) (T : Script),
      data.clusterId = some cid →
      signer.client.assertCluster cid = some (cluster, si) →
      cluster.cellOutput.type = some T →
      tx.inputs.any (fun i => decide (i.previousOutput = cluster.outPoint)) = false →
      si.cobuild = true →
      prepareCluster signer tx data (some PrepClusterMode.clusterCell) =
        .ok (clusterCellAppliedTx cluster si tx,
          some (expectedTransferClusterAction cluster T)) ∧
      (clusterCellAppliedTx cluster si tx).inputs = tx.inputs ++ [cluster.toInput] ∧
      (clusterCellAppliedTx cluster si tx).outputs = tx.outputs ++ [cluster.cellOutput] ∧
      (clusterCellAppliedTx cluster si tx).outputsData
        = tx.outputsData ++ [cluster.outputData] ∧
      CellDep.mk cluster.outPoint DepType.code ∈ (clusterCellAppliedTx cluster si tx).cellDeps ∧
      (expectedTransferClusterAction cluster T).data =
        SporeActionData.transferCluster T.args cluster.cellOutput.lock cluster.cellOutput.lock) ∧
    (∀ (signer : Signer) (tx : Tx) (data : SporeData) (cid : Nat) (cluster : Cell)
        (si : SporeScriptInfo) (T : Script),
      data.clusterId = some cid →
      signer.client.assertCluster cid = some (cluster, si) →
      cluster.cellOutput.type = some T →
      tx.inputs.any (fun i => decide (i.previousOutput = cluster.outPoint)) = false →
      si.cobuild = false →
      prepareCluster signer tx data (some PrepClusterMode.clusterCell) =
        .ok (clusterCellAppliedTx cluster si tx, none)) ∧
    (∀ (cluster : Cell) (cd : List CellDepInfo) (st : CreateSt) (T : Script),
      cluster.cellOutput.type = some T →
      createClusterCellBranch cluster cd st = .ok
        { st with
          tx := createClusterCellAppliedTx cluster cd st.tx
          actions := st.actions ++ [expectedTransferClusterAction cluster T] } ∧
      (createClusterCellAppliedTx cluster cd st.tx).inputs
        = st.tx.inputs ++ [cluster.toInput] ∧
      (createClusterCellAppliedTx cluster cd st.tx).outputs
        = st.tx.outputs ++ [cluster.cellOutput] ∧
      (createClusterCellAppliedTx cluster cd st.tx).outputsData
        = st.tx.outputsData ++ [cluster.outputData] ∧
      CellDep.mk cluster.outPoint DepType.code
        ∈ (createClusterCellAppliedTx cluster cd st.tx).cellDeps ∧
      (expectedTransferClusterAction cluster T).data =
        SporeActionData.transferCluster T.args cluster.cellOutput.lock cluster.cellOutput.lock) := by
  refine ⟨?_, ?_, ?_⟩
  · intro signer tx data cid cluster si T hcid hassert hT hfresh hcb
    obtain ⟨f1, f2, f3, f4⟩ := clusterCellAppliedTx_fields cluster si tx
    have heq := prepareCluster_clusterCell_eq signer tx data cid cluster si T
      hcid hassert hT hfresh
    rw [hcb] at heq
    simp only [if_true] at heq
    exact ⟨heq, f1, f2, f3, f4, rfl⟩
  · intro signer tx data cid cluster si T hcid hassert hT hfresh hcb
    have heq := prepareCluster_clusterCell_eq signer tx data cid cluster si T
      hcid hassert hT hfresh
    rw [hcb] at heq
    simpa using heq
  · intro cluster cd st T hT
    obtain ⟨f1, f2, f3, f4⟩ := createClusterCellAppliedTx_fields cluster cd st.tx
    exact ⟨createClusterCellBranch_eq cluster cd st T hT, f1, f2, f3, f4, rfl⟩

/-- A client identical to `clientEx` except that cluster 77's script info
declares no cobuild requirement. -/
def clientC6 : Client :=
  { clientEx with
    assertCluster := fun i =>
      if i = 77 then some (clusterCellEx, { cellDeps := [depInfoA], cobuild := false })
      else none }

/-- A signer over `clientC6`. -/
def signerC6 : Signer := { signerEx with client := clientC6 }

/-- The skeleton produced by the concrete non-cobuild clusterCell
resolution. -/
def c6Tx : Tx :=
  errTxOr (fun p => p.1)
    (prepareCluster signerC6 emptyTx dataClusteredEx (some PrepClusterMode.clusterCell))

/-- Claim C6 counterexample: in clusterCell mode with a script info that
does not declare cobuild, the standalone resolver consumes and reproduces
the cluster cell but emits no TransferCluster action — the resolution
returns `none` where the claim demands an emitted action. -/
theorem c6_counterexample :
    prepareCluster signerC6 emptyTx dataClusteredEx (some PrepClusterMode.clusterCell)
      = .ok (c6Tx, none) ∧
    c6Tx.inputs = [clusterCellEx.toInput] ∧
    c6Tx.outputs = [clusterCellEx.cellOutput] ∧
    c6Tx.outputsData = [clusterCellEx.outputData] :=
  ⟨rfl, rfl, rfl, rfl⟩

/-- Claim C6 witness: the amended characterization applied to the concrete
cobuild (`signerEx`) and non-cobuild (`signerC6`) cluster 77 environments
and to the inlined branch. -/
theorem c6_witness :
    (prepareCluster signerEx emptyTx dataClusteredEx (some PrepClusterMode.clusterCell) =
      .ok (clusterCellAppliedTx clusterCellEx { cellDeps := [depInfoA], cobuild := true } emptyTx,
        some (expectedTransferClusterAction clusterCellEx clusterTypeEx))) ∧
    (prepareCluster signerC6 emptyTx dataClusteredEx (some PrepClusterMode.clusterCell) =
      .ok (clusterCellAppliedTx clusterCellEx { cellDeps := [depInfoA], cobuild := false } emptyTx,
        none)) ∧
    (createClusterCellBranch clusterCellEx [depInfoA]
      { tx := emptyTx, actions := [], ids := [], processed := [] } = .ok
      { tx := createClusterCellAppliedTx clusterCellEx [depInfoA] emptyTx,
        actions := [] ++ [expectedTransferClusterAction clusterCellEx clusterTypeEx],
        ids := [], processed := [] }) :=
  ⟨(c6_clusterCell_characterization.1 signerEx emptyTx dataClusteredEx 77 clusterCellEx
      { cellDeps := [depInfoA], cobuild := true } clusterTypeEx rfl rfl rfl rfl rfl).1,
   c6_clusterCell_characterization.2.1 signerC6 emptyTx dataClusteredEx 77 clusterCellEx
      { cellDeps := [depInfoA], cobuild := false } clusterTypeEx rfl rfl rfl rfl rfl,
   (c6_clusterCell_characterization.2.2 clusterCellEx [depInfoA]
      { tx := emptyTx, actions := [], ids := [], processed := [] } clusterTypeEx rfl).1⟩

/-- The melt transaction of the concrete melt-then-create chain. -/
def c3MeltTx : Tx := (meltSpores signerEx [55] none).toOption.getD emptyTx

/-- The final transaction of the concrete melt-then-create chain. -/
def c3FinalTx : Tx :=
  (createSpores signerEx [{ data := dataPlainEx, dst := none }] none 0
    (some c3MeltTx)).toOption.getD (emptyTx, []) |>.1

/-- Claim C3 counterexample: melting spore 55 and then creating a spore on
the returned skeleton, under the cobuild-required client, yields a
transaction with two cobuild witnesses — each top-level call packed its own
— not exactly one cobuild witness holding both actions. -/
theorem c3_counterexample :
    meltSpores signerEx [55] none = .ok c3MeltTx ∧
    countCobuildWitnesses c3MeltTx.witnesses = 1 ∧
    countCobuildWitnesses c3FinalTx.witnesses = 2 ∧
    countCobuildWitnesses c3FinalTx.witnesses ≠ 1 :=
  ⟨rfl, rfl, rfl, by decide⟩

/-- Claim C3 (amended): in a melt-then-create chain under a cobuild-required
variant (with a generic preparation step that does not touch witnesses or
inputs), the Witness Packer runs once per top-level call, not once per
transaction: the melt call's result carries exactly one cobuild witness
holding exactly the MeltSpore action, and the chained create call appends a
second cobuild witness holding exactly the CreateSpore action — the final
transaction carries the two cobuild witnesses in that order, rather than a
single witness holding both actions. -/
theorem c3_melt_then_create_two_witnesses
    (signer : Signer) (sporeId : Nat) (cell : Cell) (deps : List CellDepInfo)
    (T : Script) (data : SporeData) (version : Nat)
    (hfind : signer.client.findSpore sporeId = some (cell, deps))
    (hT : cell.cellOutput.type = some T)
    (hcb : signer.client.cobuild = true)
    (hw : ∀ t, (signer.prep t).witnesses = t.witnesses)
    (hi : ∀ t, (signer.prep t).inputs = t.inputs)
    {m : Tx} (hm : meltSpores signer [sporeId] none = .ok m)
    {r : Tx} {ids2 : List Nat}
    (hr : createSpores signer [{ data := data, dst := none }] none version (some m)
      = .ok (r, ids2)) :
    m.witnesses = [Witness.cobuild [expectedMeltAction
      { sporeId := sporeId, cell := cell, deps := deps, typeScript := T }]] ∧
    ∃ a, r.witnesses = [Witness.cobuild [expectedMeltAction
        { sporeId := sporeId, cell := cell, deps := deps, typeScript := T }],
      Witness.cobuild [a]] ∧ a.data.isCreateSpore = true := by
  obtain ⟨st, hloop, hmm⟩ := meltSpores_ok_shape hm
  simp only [Option.getD_none] at hloop
  have hleq := meltSporesLoop_eq signer
    [{ sporeId := sporeId, cell := cell, deps := deps, typeScript := T }]
    { tx := emptyTx, actions := [], celldeps := [] }
    (by
      intro rr hrr
      rw [List.mem_singleton] at hrr
      subst hrr
      exact ⟨hfind, hT⟩)
  simp only [List.map_cons, List.map_nil] at hleq
  rw [hleq] at hloop
  injection hloop with hst
  subst hst
  rw [finalizeTx_cobuild signer _ _ hcb] at hmm
  have hmw : m.witnesses = [Witness.cobuild [expectedMeltAction
      { sporeId := sporeId, cell := cell, deps := deps, typeScript := T }]] := by
    rw [hmm, hw, inject_witnesses_eq, addCellDepInfos_witnesses]
    simp [emptyTx]
  have hmi : m.inputs = [cell.toInput] := by
    rw [hmm, hi, inject_inputs, addCellDepInfos_inputs]
    simp [emptyTx]
  obtain ⟨tx1, st2, hinj, hloop2, hre, _⟩ := createSpores_ok_shape hr
  simp only [Option.getD_some] at hinj hloop2
  rw [hmi] at hinj
  simp only [List.length_singleton] at hinj
  rw [if_neg (by simp)] at hinj
  injection hinj with htx1
  subst htx1
  obtain ⟨idv, hcti⟩ : ∃ id, computeTypeId m m.outputs.length = some id := by
    unfold computeTypeId
    rw [hmi]
    simp
  rw [createSporesLoop_single_none signer version { data := data, dst := none } m idv hcti]
    at hloop2
  injection hloop2 with hst2
  subst hst2
  rw [finalizeTx_cobuild signer _ _ hcb] at hre
  refine ⟨hmw, expectedCreateAction signer version { data := data, dst := none } idv, ?_, rfl⟩
  rw [hre, hw, inject_witnesses_eq, addCellDepInfos_witnesses, addOutput_witnesses, hmw]
  simp

/-- Claim C3 witness: the amended statement applied to the concrete
melt-then-create chain over spore 55. -/
theorem c3_witness :
    c3MeltTx.witnesses = [Witness.cobuild [expectedMeltAction
      { sporeId := 55, cell := sporeCellEx, deps := [depInfoA, depInfoB],
        typeScript := sporeTypeEx }]] ∧
    ∃ a, c3FinalTx.witnesses = [Witness.cobuild [expectedMeltAction
        { sporeId := 55, cell := sporeCellEx, deps := [depInfoA, depInfoB],
          typeScript := sporeTypeEx }],
      Witness.cobuild [a]] ∧ a.data.isCreateSpore = true :=
  c3_melt_then_create_two_witnesses signerEx 55 sporeCellEx [depInfoA, depInfoB]
    sporeTypeEx dataPlainEx 0 rfl rfl rfl (fun t => rfl) (fun t => rfl)
    (by rfl)
    (by rfl)

theorem createSporeStep_none_inv {signer : Signer} {version : Nat}
    {item : SporeCreateItem} {st st' : CreateSt}
    (h : createSporeStep signer none version item st = .ok st') :
    ∃ id, computeTypeId st.tx st.tx.outputs.length = some id ∧
      st' = { tx := st.tx.addOutput (sporeOutputFor signer version item id)
                (packRawSporeData item.data),
              actions := st.actions ++ [expectedCreateAction signer version item id],
              ids := st.ids ++ [id], processed := st.processed } := by
  obtain ⟨id, hcti⟩ : ∃ id, computeTypeId st.tx st.tx.outputs.length = some id := by
    unfold createSporeStep at h
    split at h
    · exact absurd h (by simp)
    · next id _ => exact ⟨id, by assumption⟩
  refine ⟨id, hcti, ?_⟩
  rw [createSporeStep_none_eq signer version item st id hcti] at h
  injection h with h'
  exact h'.symm

theorem createSporesLoop_none_actions {signer : Signer} {version : Nat}
    {items : List SporeCreateItem} {st st' : CreateSt}
    (h : createSporesLoop signer none version items st = .ok st') :
    ∃ idl, st'.ids = st.ids ++ idl ∧ idl.length = items.length ∧
      st'.actions = st.actions ++
        (items.zip idl).map (fun p => expectedCreateAction signer version p.1 p.2) := by
  induction items generalizing st with
  | nil =>
    unfold createSporesLoop at h
    injection h with h'
    subst h'
    exact ⟨[], by simp, rfl, by simp⟩
  | cons item rest ih =>
    unfold createSporesLoop at h
    split at h
    · exact absurd h (by simp)
    · next st1 hstep =>
      obtain ⟨id, hcti, hst1⟩ := createSporeStep_none_inv hstep
      subst hst1
      obtain ⟨idl, hids, hlen, hacts⟩ := ih h
      refine ⟨id :: idl, ?_, by simp [hlen], ?_⟩
      · rw [hids]
        simp
      · rw [hacts]
        simp

theorem createSpores_seam_witnesses {signer : Signer} {spores : List SporeCreateItem}
    {clusterMode : Option ClusterMode} {version : Nat} {txl : Option Tx}
    {tx1 : Tx} {st : CreateSt}
    (hinj : (if (txl.getD emptyTx).inputs.length = 0
      then injectOneCapacityCell signer (txl.getD emptyTx)
      else .ok (txl.getD emptyTx)) = .ok tx1)
    (hloop : createSporesLoop signer clusterMode version spores
      { tx := tx1, actions := [], ids := [], processed := [] } = .ok st) :
    (st.tx.addCellDepInfos signer.client.sporeDeps).witnesses
      = (txl.getD emptyTx).witnesses := by
  rw [addCellDepInfos_witnesses]
  have hlw := createSporesLoop_witnesses signer clusterMode version spores
    { tx := tx1, actions := [], ids := [], processed := [] }
  rw [hloop] at hlw
  simp only [errTxOr] at hlw
  rw [hlw]
  have hiw := injectOneCapacityCell_witnesses signer (txl.getD emptyTx)
  split at hinj
  · rw [hinj] at hiw
    simpa [errTxOr] using hiw
  · injection hinj with h1
    rw [← h1]

/-- Claim C4: each of `createSpores`, `transferSpores` and `meltSpores`
evaluates the cobuild-required check once, after its loop, on the assembled
skeleton (whose witness list it has not touched). When the check holds, the
call appends exactly one cobuild witness holding exactly the action list its
loop collected, in collection order — for a clusterless create run that list
is exactly one CreateSpore action per spore paired with the returned
identifiers in order, and for transfer/melt batches it is exactly one
TransferSpore/MeltSpore action per resolved entity in batch order — and the
result goes to the signer's generic preparation. When the check does not
hold, no cobuild witness is appended, the collected actions are discarded
and the untouched skeleton goes through the generic preparation directly. -/
theorem c4_witness_packer_exact :
    (∀ (signer : Signer) (spores : List SporeCreateItem) (clusterMode : Option ClusterMode)
        (version : Nat) (txl : Option Tx) (r : Tx) (ids : List Nat),
      createSpores signer spores clusterMode version txl = .ok (r, ids) →
      ∃ tx1 st,
        (if (txl.getD emptyTx).inputs.length = 0
          then injectOneCapacityCell signer (txl.getD emptyTx)
          else .ok (txl.getD emptyTx)) = .ok tx1 ∧
        createSporesLoop signer clusterMode version spores
          { tx := tx1, actions := [], ids := [], processed := [] } = .ok st ∧
        ids = st.ids ∧
        (st.tx.addCellDepInfos signer.client.sporeDeps).witnesses
          = (txl.getD emptyTx).witnesses ∧
        (signer.client.cobuild = true →
          r = signer.prep (injectCommonCobuildProof
            (st.tx.addCellDepInfos signer.client.sporeDeps) st.actions) ∧
          (injectCommonCobuildProof
            (st.tx.addCellDepInfos signer.client.sporeDeps) st.actions).witnesses
            = (txl.getD emptyTx).witnesses ++ [Witness.cobuild st.actions] ∧
          countCobuildWitnesses (injectCommonCobuildProof
            (st.tx.addCellDepInfos signer.client.sporeDeps) st.actions).witnesses
            = countCobuildWitnesses (txl.getD emptyTx).witnesses + 1) ∧
        (signer.client.cobuild = false →
          r = signer.prep (st.tx.addCellDepInfos signer.client.sporeDeps))) ∧
    (∀ (signer : Signer) (items : List SporeCreateItem) (version : Nat) (txl : Option Tx)
        (r : Tx) (ids : List Nat),
      createSpores signer items none version txl = .ok (r, ids) →
      ids.length = items.length ∧
      ∃ seam,
        seam.witnesses = (txl.getD emptyTx).witnesses ∧
        (signer.client.cobuild = true →
          r = signer.prep (injectCommonCobuildProof seam
            ((items.zip ids).map (fun p => expectedCreateAction signer version p.1 p.2))) ∧
          (injectCommonCobuildProof seam
            ((items.zip ids).map (fun p => expectedCreateAction signer version p.1 p.2))).witnesses
            = (txl.getD emptyTx).witnesses ++ [Witness.cobuild
                ((items.zip ids).map (fun p => expectedCreateAction signer version p.1 p.2))]) ∧
        (signer.client.cobuild = false → r = signer.prep seam)) ∧
    (∀ (signer : Signer) (resolved : List ResolvedTransfer) (txl : Option Tx) (r : Tx),
      (∀ rr ∈ resolved, signer.client.findSpore rr.item.id = some (rr.cell, rr.deps) ∧
        rr.cell.cellOutput.type = some rr.typeScript) →
      transferSpores signer (resolved.map (fun rr => rr.item)) txl = .ok r →
      ∃ seam,
        seam.witnesses = (txl.getD emptyTx).witnesses ∧
        (signer.client.cobuild = true →
          r = signer.prep (injectCommonCobuildProof seam
            (resolved.map expectedTransferAction)) ∧
          (injectCommonCobuildProof seam (resolved.map expectedTransferAction)).witnesses
            = (txl.getD emptyTx).witnesses ++
              [Witness.cobuild (resolved.map expectedTransferAction)] ∧
          countCobuildWitnesses (injectCommonCobuildProof seam
            (resolved.map expectedTransferAction)).witnesses
            = countCobuildWitnesses (txl.getD emptyTx).witnesses + 1) ∧
        (signer.client.cobuild = false → r = signer.prep seam)) ∧
    (∀ (signer : Signer) (resolved : List ResolvedMelt) (txl : Option Tx) (r : Tx),
      (∀ rr ∈ resolved, signer.client.findSpore rr.sporeId = some (rr.cell, rr.deps) ∧
        rr.cell.cellOutput.type = some rr.typeScript) →
      meltSpores signer (resolved.map (fun rr => rr.sporeId)) txl = .ok r →
      ∃ seam,
        seam.witnesses = (txl.getD emptyTx).witnesses ∧
        (signer.client.cobuild = true →
          r = signer.prep (injectCommonCobuildProof seam
            (resolved.map expectedMeltAction)) ∧
          (injectCommonCobuildProof seam (resolved.map expectedMeltAction)).witnesses
            = (txl.getD emptyTx).witnesses ++
              [Witness.cobuild (resolved.map expectedMeltAction)] ∧
          countCobuildWitnesses (injectCommonCobuildProof seam
            (resolved.map expectedMeltAction)).witnesses
            = countCobuildWitnesses (txl.getD emptyTx).witnesses + 1) ∧
        (signer.client.cobuild = false → r = signer.prep seam)) := by
  refine ⟨?_, ?_, ?_, ?_⟩
  · intro signer spores clusterMode version txl r ids h
    obtain ⟨tx1, st, hinj, hloop, hr, hids⟩ := createSpores_ok_shape h
    have hwit := createSpores_seam_witnesses hinj hloop
    refine ⟨tx1, st, hinj, hloop, hids, hwit, fun hcb => ?_, fun hcb => ?_⟩
    · refine ⟨by rw [hr, finalizeTx_cobuild signer _ _ hcb], ?_, ?_⟩
      · rw [inject_witnesses_eq, hwit]
      · rw [inject_witnesses_eq, hwit, countCobuild_snoc_cobuild]
    · rw [hr, finalizeTx_plain signer _ _ hcb]
  · intro signer items version txl r ids h
    obtain ⟨tx1, st, hinj, hloop, hr, hids⟩ := createSpores_ok_shape h
    have hwit := createSpores_seam_witnesses hinj hloop
    obtain ⟨idl, hids2, hlen, hacts⟩ := createSporesLoop_none_actions hloop
    simp only [List.nil_append] at hids2 hacts
    have hidseq : ids = idl := by rw [hids, hids2]
    subst hidseq
    refine ⟨by rw [hids, hids2, hlen],
      st.tx.addCellDepInfos signer.client.sporeDeps, hwit, fun hcb => ?_, fun hcb => ?_⟩
    · refine ⟨?_, ?_⟩
      · rw [hr, finalizeTx_cobuild signer _ _ hcb, hacts]
      · rw [inject_witnesses_eq, hwit]
    · rw [hr, finalizeTx_plain signer _ _ hcb]
  · intro signer resolved txl r hres h
    obtain ⟨st, hloop, hr⟩ := transferSpores_ok_shape h
    rw [transferSporesLoop_eq signer resolved _ hres] at hloop
    injection hloop with hst
    have hact : st.actions = resolved.map expectedTransferAction := by
      rw [← hst]
      simp
    have hwitst : st.tx.witnesses = (txl.getD emptyTx).witnesses := by
      rw [← hst]
    refine ⟨st.tx.addCellDepInfos st.celldeps, ?_, fun hcb => ?_, fun hcb => ?_⟩
    · rw [addCellDepInfos_witnesses, hwitst]
    · refine ⟨?_, ?_, ?_⟩
      · rw [hr, hact, finalizeTx_cobuild signer _ _ hcb]
      · rw [inject_witnesses_eq, addCellDepInfos_witnesses, hwitst]
      · rw [inject_witnesses_eq, addCellDepInfos_witnesses, hwitst, countCobuild_snoc_cobuild]
    · rw [hr, finalizeTx_plain signer _ _ hcb]
  · intro signer resolved txl r hres h
    obtain ⟨st, hloop, hr⟩ := meltSpores_ok_shape h
    rw [meltSporesLoop_eq signer resolved _ hres] at hloop
    injection hloop with hst
    have hact : st.actions = resolved.map expectedMeltAction := by
      rw [← hst]
      simp
    have hwitst : st.tx.witnesses = (txl.getD emptyTx).witnesses := by
      rw [← hst]
    refine ⟨st.tx.addCellDepInfos st.celldeps, ?_, fun hcb => ?_, fun hcb => ?_⟩
    · rw [addCellDepInfos_witnesses, hwitst]
    · refine ⟨?_, ?_, ?_⟩
      · rw [hr, hact, finalizeTx_cobuild signer _ _ hcb]
      · rw [inject_witnesses_eq, addCellDepInfos_witnesses, hwitst]
      · rw [inject_witnesses_eq, addCellDepInfos_witnesses, hwitst, countCobuild_snoc_cobuild]
    · rw [hr, finalizeTx_plain signer _ _ hcb]

/-- Claim C4 witness: the exact-packing statement applied at a concrete
clusterless create of one plain spore and at the concrete transfer of spore
55, with every hypothesis discharged by evaluation: the returned identifier
list has exactly one entry, and each call's result is the generic
preparation of a skeleton that had no prior witnesses plus exactly one
cobuild witness holding exactly the expected action list. -/
theorem c4_exact_witness :
    c4Res.2.length = 1 ∧
    (∃ seam, seam.witnesses = [] ∧
      c4Res.1 = signerEx.prep (injectCommonCobuildProof seam
        (([{ data := dataPlainEx, dst := none }].zip c4Res.2).map
          (fun p => expectedCreateAction signerEx 0 p.1 p.2))) ∧
      (injectCommonCobuildProof seam
        (([{ data := dataPlainEx, dst := none }].zip c4Res.2).map
          (fun p => expectedCreateAction signerEx 0 p.1 p.2))).witnesses
        = [Witness.cobuild (([{ data := dataPlainEx, dst := none }].zip c4Res.2).map
            (fun p => expectedCreateAction signerEx 0 p.1 p.2))]) ∧
    (∃ seam, seam.witnesses = [] ∧
      c5Res = signerEx.prep (injectCommonCobuildProof seam
        (c8Resolved.map expectedTransferAction)) ∧
      (injectCommonCobuildProof seam (c8Resolved.map expectedTransferAction)).witnesses
        = [Witness.cobuild (c8Resolved.map expectedTransferAction)]) := by
  obtain ⟨hlen, seam1, hw1, hcb1, -⟩ :=
    c4_witness_packer_exact.2.1 signerEx [{ data := dataPlainEx, dst := none }] 0 none
      c4Res.1 c4Res.2 (by rfl)
  obtain ⟨seam2, hw2, hcb2, -⟩ :=
    c4_witness_packer_exact.2.2.1 signerEx c8Resolved none c5Res
      (by
        intro rr hrr
        rw [c8Resolved, List.mem_singleton] at hrr
        subst hrr
        exact ⟨rfl, rfl⟩)
      (by rfl)
  obtain ⟨hr1, hwl1⟩ := hcb1 rfl
  obtain ⟨hr2, hwl2, -⟩ := hcb2 rfl
  refine ⟨?_, ⟨seam1, ?_, hr1, ?_⟩, ⟨seam2, ?_, hr2, ?_⟩⟩
  · simpa using hlen
  · simpa [emptyTx] using hw1
  · simpa [emptyTx] using hwl1
  · simpa [emptyTx] using hw2
  · simpa [emptyTx] using hwl2
